import Mathlib

/-!
# WS2812FX / WS2812FXT (src/src/WS2812FX.h)

A shallow embedding of the parts of `WS2812FX.h` that the verified statements
are about: the option macros, the mode tables, and the dual-instance
transition engine `WS2812FXT` (`service`, `startTransition`, `_show`).

Conventions.
* `unsigned long` is the 32-bit millisecond clock; values are naturals and every
  unsigned sum is reduced modulo `2 ^ 32` where the source computes it.
* `long` is 32-bit two's complement; `toLong` performs the wrap-around.
* A pixel buffer (`uint8_t *`) is a function from byte offset to byte value.
-/

namespace WS2812FX

/-! ## Constants and option macros -/

/-- `#define MAX_MILLIS (0UL - 1UL)`: the largest `unsigned long`. -/
def MAX_MILLIS : Nat := (0 + 4294967296 - 1) % 4294967296

def MAX_NUM_SEGMENTS : Nat := 10
def MAX_NUM_ACTIVE_SEGMENTS : Nat := 10
def INACTIVE_SEGMENT : Nat := 255
def MAX_NUM_COLORS : Nat := 3
def MAX_CUSTOM_MODES : Nat := 8

def NO_OPTIONS : Nat := 0b00000000
def REVERSE : Nat := 0b10000000
def FADE_XFAST : Nat := 0b00010000
def FADE_FAST : Nat := 0b00100000
def FADE_MEDIUM : Nat := 0b00110000
def FADE_SLOW : Nat := 0b01000000
def FADE_XSLOW : Nat := 0b01010000
def FADE_XXSLOW : Nat := 0b01100000
def FADE_GLACIAL : Nat := 0b01110000
def GAMMA : Nat := 0b00001000
def SIZE_SMALL : Nat := 0b00000000
def SIZE_MEDIUM : Nat := 0b00000010
def SIZE_LARGE : Nat := 0b00000100
def SIZE_XLARGE : Nat := 0b00000110

/-- `#define IS_REVERSE ((_seg->options & REVERSE) == REVERSE)`, as a function of
the options byte. -/
def IS_REVERSE (options : Nat) : Bool := (options &&& REVERSE) == REVERSE

/-- `#define FADE_RATE ((_seg->options >> 4) & 7)`. -/
def FADE_RATE (options : Nat) : Nat := (options >>> 4) &&& 7

/-- `#define IS_GAMMA ((_seg->options & GAMMA) == GAMMA)`. -/
def IS_GAMMA (options : Nat) : Bool := (options &&& GAMMA) == GAMMA

/-- `#define SIZE_OPTION ((_seg->options >> 1) & 3)`. -/
def SIZE_OPTION (options : Nat) : Nat := (options >>> 1) &&& 3

/-- The options byte with the given fields, by the documented bit layout (bit 7
reverse, bits 4-6 fade rate, bit 3 gamma, bits 1-2 size, bit 0 reserved):
`128*reverse + 16*fade + 8*gamma + 2*size + r`. -/
def packOptions (reverse fade gamma size r : Nat) : Nat :=
  128 * reverse + 16 * fade + 8 * gamma + 2 * size + r

/-- Numeric value of a C `bool`. -/
def bit (b : Bool) : Nat := if b then 1 else 0

/-! ## Mode identifiers, names and the dispatch table -/

def FX_MODE_STATIC : Nat := 0
def FX_MODE_BLINK : Nat := 1
def FX_MODE_BREATH : Nat := 2
def FX_MODE_COLOR_WIPE : Nat := 3
def FX_MODE_COLOR_WIPE_INV : Nat := 4
def FX_MODE_COLOR_WIPE_REV : Nat := 5
def FX_MODE_COLOR_WIPE_REV_INV : Nat := 6
def FX_MODE_COLOR_WIPE_RANDOM : Nat := 7
def FX_MODE_RANDOM_COLOR : Nat := 8
def FX_MODE_SINGLE_DYNAMIC : Nat := 9
def FX_MODE_MULTI_DYNAMIC : Nat := 10
def FX_MODE_RAINBOW : Nat := 11
def FX_MODE_RAINBOW_CYCLE : Nat := 12
def FX_MODE_SCAN : Nat := 13
def FX_MODE_DUAL_SCAN : Nat := 14
def FX_MODE_FADE : Nat := 15
def FX_MODE_THEATER_CHASE : Nat := 16
def FX_MODE_THEATER_CHASE_RAINBOW : Nat := 17
def FX_MODE_RUNNING_LIGHTS : Nat := 18
def FX_MODE_TWINKLE : Nat := 19
def FX_MODE_TWINKLE_RANDOM : Nat := 20
def FX_MODE_TWINKLE_FADE : Nat := 21
def FX_MODE_TWINKLE_FADE_RANDOM : Nat := 22
def FX_MODE_SPARKLE : Nat := 23
def FX_MODE_FLASH_SPARKLE : Nat := 24
def FX_MODE_HYPER_SPARKLE : Nat := 25
def FX_MODE_STROBE : Nat := 26
def FX_MODE_STROBE_RAINBOW : Nat := 27
def FX_MODE_MULTI_STROBE : Nat := 28
def FX_MODE_BLINK_RAINBOW : Nat := 29
def FX_MODE_CHASE_WHITE : Nat := 30
def FX_MODE_CHASE_COLOR : Nat := 31
def FX_MODE_CHASE_RANDOM : Nat := 32
def FX_MODE_CHASE_RAINBOW : Nat := 33
def FX_MODE_CHASE_FLASH : Nat := 34
def FX_MODE_CHASE_FLASH_RANDOM : Nat := 35
def FX_MODE_CHASE_RAINBOW_WHITE : Nat := 36
def FX_MODE_CHASE_BLACKOUT : Nat := 37
def FX_MODE_CHASE_BLACKOUT_RAINBOW : Nat := 38
def FX_MODE_COLOR_SWEEP_RANDOM : Nat := 39
def FX_MODE_RUNNING_COLOR : Nat := 40
def FX_MODE_RUNNING_RED_BLUE : Nat := 41
def FX_MODE_RUNNING_RANDOM : Nat := 42
def FX_MODE_LARSON_SCANNER : Nat := 43
def FX_MODE_COMET : Nat := 44
def FX_MODE_FIREWORKS : Nat := 45
def FX_MODE_FIREWORKS_RANDOM : Nat := 46
def FX_MODE_MERRY_CHRISTMAS : Nat := 47
def FX_MODE_FIRE_FLICKER : Nat := 48
def FX_MODE_FIRE_FLICKER_SOFT : Nat := 49
def FX_MODE_FIRE_FLICKER_INTENSE : Nat := 50
def FX_MODE_CIRCUS_COMBUSTUS : Nat := 51
def FX_MODE_HALLOWEEN : Nat := 52
def FX_MODE_BICOLOR_CHASE : Nat := 53
def FX_MODE_TRICOLOR_CHASE : Nat := 54
def FX_MODE_TWINKLEFOX : Nat := 55
def FX_MODE_CUSTOM : Nat := 56
def FX_MODE_CUSTOM_0 : Nat := 56
def FX_MODE_CUSTOM_1 : Nat := 57
def FX_MODE_CUSTOM_2 : Nat := 58
def FX_MODE_CUSTOM_3 : Nat := 59
def FX_MODE_CUSTOM_4 : Nat := 60
def FX_MODE_CUSTOM_5 : Nat := 61
def FX_MODE_CUSTOM_6 : Nat := 62
def FX_MODE_CUSTOM_7 : Nat := 63

def name_0 : String := "Static"
def name_1 : String := "Blink"
def name_2 : String := "Breath"
def name_3 : String := "Color Wipe"
def name_4 : String := "Color Wipe Inverse"
def name_5 : String := "Color Wipe Reverse"
def name_6 : String := "Color Wipe Reverse Inverse"
def name_7 : String := "Color Wipe Random"
def name_8 : String := "Random Color"
def name_9 : String := "Single Dynamic"
def name_10 : String := "Multi Dynamic"
def name_11 : String := "Rainbow"
def name_12 : String := "Rainbow Cycle"
def name_13 : String := "Scan"
def name_14 : String := "Dual Scan"
def name_15 : String := "Fade"
def name_16 : String := "Theater Chase"
def name_17 : String := "Theater Chase Rainbow"
def name_18 : String := "Running Lights"
def name_19 : String := "Twinkle"
def name_20 : String := "Twinkle Random"
def name_21 : String := "Twinkle Fade"
def name_22 : String := "Twinkle Fade Random"
def name_23 : String := "Sparkle"
def name_24 : String := "Flash Sparkle"
def name_25 : String := "Hyper Sparkle"
def name_26 : String := "Strobe"
def name_27 : String := "Strobe Rainbow"
def name_28 : String := "Multi Strobe"
def name_29 : String := "Blink Rainbow"
def name_30 : String := "Chase White"
def name_31 : String := "Chase Color"
def name_32 : String := "Chase Random"
def name_33 : String := "Chase Rainbow"
def name_34 : String := "Chase Flash"
def name_35 : String := "Chase Flash Random"
def name_36 : String := "Chase Rainbow White"
def name_37 : String := "Chase Blackout"
def name_38 : String := "Chase Blackout Rainbow"
def name_39 : String := "Color Sweep Random"
def name_40 : String := "Running Color"
def name_41 : String := "Running Red Blue"
def name_42 : String := "Running Random"
def name_43 : String := "Larson Scanner"
def name_44 : String := "Comet"
def name_45 : String := "Fireworks"
def name_46 : String := "Fireworks Random"
def name_47 : String := "Merry Christmas"
def name_48 : String := "Fire Flicker"
def name_49 : String := "Fire Flicker (soft)"
def name_50 : String := "Fire Flicker (intense)"
def name_51 : String := "Circus Combustus"
def name_52 : String := "Halloween"
def name_53 : String := "Bicolor Chase"
def name_54 : String := "Tricolor Chase"
def name_55 : String := "TwinkleFOX"
def name_56 : String := "Custom 0"
def name_57 : String := "Custom 1"
def name_58 : String := "Custom 2"
def name_59 : String := "Custom 3"
def name_60 : String := "Custom 4"
def name_61 : String := "Custom 5"
def name_62 : String := "Custom 6"
def name_63 : String := "Custom 7"

/-- `static const __FlashStringHelper* _names[]`. -/
def _names : List String :=
  [name_0, name_1, name_2, name_3, name_4, name_5, name_6, name_7,
   name_8, name_9, name_10, name_11, name_12, name_13, name_14, name_15,
   name_16, name_17, name_18, name_19, name_20, name_21, name_22, name_23,
   name_24, name_25, name_26, name_27, name_28, name_29, name_30, name_31,
   name_32, name_33, name_34, name_35, name_36, name_37, name_38, name_39,
   name_40, name_41, name_42, name_43, name_44, name_45, name_46, name_47,
   name_48, name_49, name_50, name_51, name_52, name_53, name_54, name_55,
   name_56, name_57, name_58, name_59, name_60, name_61, name_62, name_63]

/-- `#define MODE_COUNT (sizeof(_names)/sizeof(_names[0]))`. -/
def MODE_COUNT : Nat := _names.length

/-- The member functions a `mode_ptr` can point to: the builtin modes declared
in `class WS2812FX`. -/
inductive Mode where
  | mode_static
  | mode_blink
  | mode_blink_rainbow
  | mode_strobe
  | mode_strobe_rainbow
  | mode_color_wipe
  | mode_color_wipe_inv
  | mode_color_wipe_rev
  | mode_color_wipe_rev_inv
  | mode_color_wipe_random
  | mode_color_sweep_random
  | mode_random_color
  | mode_single_dynamic
  | mode_multi_dynamic
  | mode_breath
  | mode_fade
  | mode_scan
  | mode_dual_scan
  | mode_theater_chase
  | mode_theater_chase_rainbow
  | mode_rainbow
  | mode_rainbow_cycle
  | mode_running_lights
  | mode_twinkle
  | mode_twinkle_random
  | mode_twinkle_fade
  | mode_twinkle_fade_random
  | mode_sparkle
  | mode_flash_sparkle
  | mode_hyper_sparkle
  | mode_multi_strobe
  | mode_chase_white
  | mode_chase_color
  | mode_chase_random
  | mode_chase_rainbow
  | mode_chase_flash
  | mode_chase_flash_random
  | mode_chase_rainbow_white
  | mode_chase_blackout
  | mode_chase_blackout_rainbow
  | mode_running_color
  | mode_running_red_blue
  | mode_running_random
  | mode_larson_scanner
  | mode_comet
  | mode_fireworks
  | mode_fireworks_random
  | mode_merry_christmas
  | mode_halloween
  | mode_fire_flicker
  | mode_fire_flicker_soft
  | mode_fire_flicker_intense
  | mode_circus_combustus
  | mode_bicolor_chase
  | mode_tricolor_chase
  | mode_twinkleFOX
  | mode_custom_0
  | mode_custom_1
  | mode_custom_2
  | mode_custom_3
  | mode_custom_4
  | mode_custom_5
  | mode_custom_6
  | mode_custom_7
  deriving DecidableEq, Repr

/-- `static WS2812FX::mode_ptr _modes[MODE_COUNT]`. -/
def _modes : List Mode :=
  [.mode_static, .mode_blink, .mode_breath, .mode_color_wipe,
   .mode_color_wipe_inv, .mode_color_wipe_rev, .mode_color_wipe_rev_inv, .mode_color_wipe_random,
   .mode_random_color, .mode_single_dynamic, .mode_multi_dynamic, .mode_rainbow,
   .mode_rainbow_cycle, .mode_scan, .mode_dual_scan, .mode_fade,
   .mode_theater_chase, .mode_theater_chase_rainbow, .mode_running_lights, .mode_twinkle,
   .mode_twinkle_random, .mode_twinkle_fade, .mode_twinkle_fade_random, .mode_sparkle,
   .mode_flash_sparkle, .mode_hyper_sparkle, .mode_strobe, .mode_strobe_rainbow,
   .mode_multi_strobe, .mode_blink_rainbow, .mode_chase_white, .mode_chase_color,
   .mode_chase_random, .mode_chase_rainbow, .mode_chase_flash, .mode_chase_flash_random,
   .mode_chase_rainbow_white, .mode_chase_blackout, .mode_chase_blackout_rainbow, .mode_color_sweep_random,
   .mode_running_color, .mode_running_red_blue, .mode_running_random, .mode_larson_scanner,
   .mode_comet, .mode_fireworks, .mode_fireworks_random, .mode_merry_christmas,
   .mode_fire_flicker, .mode_fire_flicker_soft, .mode_fire_flicker_intense, .mode_circus_combustus,
   .mode_halloween, .mode_bicolor_chase, .mode_tricolor_chase, .mode_twinkleFOX,
   .mode_custom_0, .mode_custom_1, .mode_custom_2, .mode_custom_3,
   .mode_custom_4, .mode_custom_5, .mode_custom_6, .mode_custom_7]

/-- The entries `mode_custom_0 .. mode_custom_7`. -/
def customModes : List Mode :=
  [.mode_custom_0, .mode_custom_1, .mode_custom_2, .mode_custom_3,
   .mode_custom_4, .mode_custom_5, .mode_custom_6, .mode_custom_7]

/-- The display names "Custom 0" .. "Custom 7". -/
def customNames : List String :=
  ["Custom 0", "Custom 1", "Custom 2", "Custom 3",
   "Custom 4", "Custom 5", "Custom 6", "Custom 7"]

/-- The identifiers `FX_MODE_CUSTOM_0 .. FX_MODE_CUSTOM_7`. -/
def customIds : List Nat :=
  [FX_MODE_CUSTOM_0, FX_MODE_CUSTOM_1, FX_MODE_CUSTOM_2, FX_MODE_CUSTOM_3,
   FX_MODE_CUSTOM_4, FX_MODE_CUSTOM_5, FX_MODE_CUSTOM_6, FX_MODE_CUSTOM_7]

/-! ## Data model of one engine instance -/

/-- `typedef struct Segment`. -/
structure Segment where
  start : Nat
  stop : Nat
  speed : Nat
  mode : Nat
  options : Nat
  colors : List Nat

/-- `typedef struct Segment_runtime`. -/
structure Segment_runtime where
  next_time : Nat
  counter_mode_step : Nat
  counter_mode_call : Nat
  aux_param : Nat
  aux_param2 : Nat
  aux_param3 : Nat

/-- A byte buffer reached through a `uint8_t *`: offset to byte. -/
abbrev Buffer := Nat → Nat

/-- The state of one `WS2812FX` instance: the private members of the class that
the header declares, and the byte length of its pixel buffer. -/
structure Engine where
  _running : Bool
  _triggered : Bool
  _segments : List Segment
  _segment_runtimes : List Segment_runtime
  _active_segments : List Nat
  drawBuffer : Buffer
  bytesPerPixel : Nat
  numBytes : Nat

/-- `uint8_t* getPixels(void) const { return drawBuffer; }`. -/
def Engine.getPixels (e : Engine) : Buffer := e.drawBuffer

/-- Modelled from the spec: `getNumBytes` is declared in the header and defined
in the library's .cpp file, which is not part of the sources; the spec lists the
"buffer length" accessor, so it returns the byte length of the pixel buffer,
as the `uint16_t` the declaration gives. -/
def Engine.getNumBytes (e : Engine) : Nat := e.numBytes % 65536

end WS2812FX

/-! ## Library routines the header calls -/

namespace Arduino

/-- Conversion to a 32-bit two's-complement `long` (wrap-around). -/
def toLong (z : Int) : Int := (z + 2147483648) % 4294967296 - 2147483648

/-- Conversion of a `long` to `uint8_t`. -/
def toUint8 (z : Int) : Nat := (z % 256).toNat

/-- Sum of two `unsigned long` values. -/
def addUL (a b : Nat) : Nat := (a + b) % 4294967296

/-- Modelled from the spec: `map` belongs to the Arduino core, not to this
repository. The spec gives the blend amount as
`255 * (now - start) / duration`, which is the core's reference definition
`(x - in_min) * (out_max - out_min) / (in_max - in_min) + out_min`
over `long`. Every operation wraps to 32 bits, the division truncates toward
zero, and a zero input span (a division by zero) has no result. -/
def map (x in_min in_max out_min out_max : Int) : Option Int :=
  if toLong (in_max - in_min) = 0 then none
  else
    some (toLong (toLong (Int.tdiv (toLong (toLong (x - in_min) * toLong (out_max - out_min)))
      (toLong (in_max - in_min))) + out_min))

/-- `memmove(dest, src, n)`: the first `n` bytes come from `src`, the rest of
`dest` is untouched. -/
def memmove (dest src : WS2812FX.Buffer) (n : Nat) : WS2812FX.Buffer :=
  fun i => if i < n then src i else dest i

end Arduino

namespace WS2812FX

/-- Modelled from the spec: one byte of the blend, "linear interpolation of
from[i] and to[i]" with weight `blendAmt / 255`. -/
def blendByte (a b blendAmt : Nat) : Nat :=
  ((a : Int) + Int.tdiv (((b : Int) - (a : Int)) * (blendAmt : Int)) 255).toNat

/-- Modelled from the spec: `blend(dest, src1, src2, cnt, blendAmt)` is declared in
the header and defined in the library's .cpp file, which is not part of the
sources. The spec describes it as "a per-byte alpha blend across the whole
buffer": byte `i < cnt` of `dest` becomes the linear interpolation of
`src1[i]` and `src2[i]`. -/
def blend (dest src1 src2 : Buffer) (cnt blendAmt : Nat) : Buffer :=
  fun i => if i < cnt then blendByte (src1 i) (src2 i) blendAmt else dest i

end WS2812FX

/-! ## The transition engine `WS2812FXT` -/

/-- What a run of the transition engine does that is visible from outside: calls
of the inner `service` methods and flushes of the destination buffer. -/
inductive Event where
  | serviceV1
  | serviceV2
  | flush
  deriving DecidableEq, Repr

/-- The two inner instances a transition runs between. -/
inductive Instance where
  | v1
  | v2
  deriving DecidableEq, Repr

/-- The members of `class WS2812FXT`, with the defaults of the header, and the
trace of events so far. -/
structure WS2812FXT where
  v1 : WS2812FX.Engine
  v2 : WS2812FX.Engine
  dest : WS2812FX.Engine
  transitionStartTime : Nat := WS2812FX.MAX_MILLIS
  transitionDuration : Nat := 5000
  transitionDirection : Bool := true
  trace : List Event := []

/-- The branch `_show` takes, with the amount it hands to `blend`. -/
inductive ShowStep where
  | copyStart
  | copyStop
  | blend (blendAmt : Nat)
  deriving DecidableEq, Repr

namespace WS2812FXT

open WS2812FX Arduino

/-- Dereference of `v1` or `v2`. -/
def inst (t : WS2812FXT) : Instance → Engine
  | .v1 => t.v1
  | .v2 => t.v2

/-- The instance behind `vstart_p`: `transitionDirection ? v1 : v2`. -/
def vstart (transitionDirection : Bool) : Instance :=
  if transitionDirection then .v1 else .v2

/-- The instance behind `vstop_p`: `transitionDirection ? v2 : v1`. -/
def vstop (transitionDirection : Bool) : Instance :=
  if transitionDirection then .v2 else .v1

/-- `uint8_t *vstart_p = transitionDirection ? v1->getPixels() : v2->getPixels();`. -/
def vstart_p (t : WS2812FXT) : Buffer := (t.inst (vstart t.transitionDirection)).getPixels

/-- `uint8_t *vstop_p = transitionDirection ? v2->getPixels() : v1->getPixels();`. -/
def vstop_p (t : WS2812FXT) : Buffer := (t.inst (vstop t.transitionDirection)).getPixels

/-- `uint8_t blendAmt = map(now, transitionStartTime,
transitionStartTime + transitionDuration, 0, 255);`. The unsigned arguments are
converted to `long`, the result to `uint8_t`. Where `map` has no result (zero
span) the amount is taken as 0, the quotient an ARM core delivers for a
division by zero. -/
def blendAmt (transitionStartTime transitionDuration now : Nat) : Nat :=
  toUint8 ((map (toLong now) (toLong transitionStartTime)
    (toLong (addUL transitionStartTime transitionDuration)) 0 255).getD 0)

/-- The `if / else if / else` of `_show`: which branch runs at clock reading
`now`. -/
def showStep (transitionStartTime transitionDuration now : Nat) : ShowStep :=
  if now < transitionStartTime then .copyStart
  else if now > addUL transitionStartTime transitionDuration then .copyStop
  else .blend (blendAmt transitionStartTime transitionDuration now)

/-- `dest->Adafruit_NeoPixel::show()`: the destination buffer goes to the strip. -/
def flushDest (t : WS2812FXT) : WS2812FXT :=
  { t with trace := t.trace ++ [Event.flush] }

/-- `void _show(void)`, at clock reading `now = millis()`. -/
def _show (now : Nat) (t : WS2812FXT) : WS2812FXT :=
  let dest_p := t.dest.getPixels
  let numBytes := t.dest.getNumBytes
  let dest_p' : Buffer :=
    match showStep t.transitionStartTime t.transitionDuration now with
    | .copyStart => memmove dest_p t.vstart_p numBytes
    | .copyStop => memmove dest_p t.vstop_p numBytes
    | .blend amt => blend dest_p t.vstart_p t.vstop_p numBytes amt
  flushDest { t with dest := { t.dest with drawBuffer := dest_p' } }

/-- `bool doShow = v1->service() || v2->service();` with the inner `service`
methods as parameters (they live in the library's .cpp file): `||` evaluates its
right operand only when the left one is false. -/
def doShow (service1 service2 : Engine → Bool × Engine) (t : WS2812FXT) :
    Bool × WS2812FXT :=
  let r1 := service1 t.v1
  let t1 : WS2812FXT := { t with v1 := r1.2, trace := t.trace ++ [Event.serviceV1] }
  if r1.1 then (true, t1)
  else
    let r2 := service2 t1.v2
    (r2.1, { t1 with v2 := r2.2, trace := t1.trace ++ [Event.serviceV2] })

/-- `void service(void)`. -/
def service (service1 service2 : Engine → Bool × Engine) (now : Nat) (t : WS2812FXT) :
    WS2812FXT :=
  let r := doShow service1 service2 t
  if r.1 then _show now r.2 else r.2

/-- `void startTransition(uint16_t duration, bool direction = true)` at clock
reading `now = millis()`; the argument is converted to `uint16_t`. -/
def startTransition (now duration : Nat) (direction : Bool) (t : WS2812FXT) : WS2812FXT :=
  { t with
    transitionStartTime := now
    transitionDuration := duration % 65536
    transitionDirection := direction }

end WS2812FXT

/-! ## Colour, runtime-flag and gamma helpers -/

namespace WS2812FX

/-- `#define DIM(c) (uint32_t)((c >> 2) & 0x3f3f3f3f)`: colour at 25% intensity. -/
def DIM (c : Nat) : Nat := ((c >>> 2) &&& 0x3f3f3f3f) % 4294967296

/-- `#define DARK(c) (uint32_t)((c >> 4) & 0x0f0f0f0f)`: colour at 6% intensity. -/
def DARK (c : Nat) : Nat := ((c >>> 4) &&& 0x0f0f0f0f) % 4294967296

/-- The 8-bit channel `k` (0 = lowest byte) of a packed colour. -/
def channel (c k : Nat) : Nat := (c >>> (8 * k)) &&& 0xFF

def FRAME : Nat := 0b10000000
def CYCLE : Nat := 0b01000000

/-- `~x` for an operand promoted to an `int` of `intBits` bits (16 on AVR, 32 on
ARM): the two's-complement bit pattern of the complement. -/
def intNot (intBits x : Nat) : Nat := 2 ^ intBits - 1 - x % 2 ^ intBits

/-- `a &= m` on the `uint8_t` field `aux_param2` with an `int` mask `m`: the field
is promoted to `int`, the AND is taken there and the low eight bits are stored. -/
def andAssign8 (a m : Nat) : Nat := (a &&& m) % 256

/-- `#define SET_FRAME (_seg_rt->aux_param2 |= FRAME)`, as a function of the byte. -/
def SET_FRAME (aux_param2 : Nat) : Nat := (aux_param2 ||| FRAME) % 256

/-- `#define CLR_FRAME (_seg_rt->aux_param2 &= ~FRAME)`. -/
def CLR_FRAME (intBits aux_param2 : Nat) : Nat :=
  andAssign8 aux_param2 (intNot intBits FRAME)

/-- `#define SET_CYCLE (_seg_rt->aux_param2 |= CYCLE)`. -/
def SET_CYCLE (aux_param2 : Nat) : Nat := (aux_param2 ||| CYCLE) % 256

/-- `#define CLR_CYCLE (_seg_rt->aux_param2 &= ~CYCLE)`. -/
def CLR_CYCLE (intBits aux_param2 : Nat) : Nat :=
  andAssign8 aux_param2 (intNot intBits CYCLE)

/-- `#define CLR_FRAME_CYCLE (_seg_rt->aux_param2 &= ~(FRAME | CYCLE))`. -/
def CLR_FRAME_CYCLE (intBits aux_param2 : Nat) : Nat :=
  andAssign8 aux_param2 (intNot intBits (FRAME ||| CYCLE))

/-- `static const uint8_t PROGMEM _NeoPixelGammaTable[256]`. -/
def _NeoPixelGammaTable : List Nat :=
  [0, 0, 0, 0, 0, 0, 0, 0, 0, 0, 0, 0, 0, 0, 0, 0,
   0, 0, 0, 0, 0, 0, 0, 0, 1, 1, 1, 1, 1, 1, 1, 1,
   1, 1, 1, 1, 2, 2, 2, 2, 2, 2, 2, 2, 3, 3, 3, 3,
   3, 3, 4, 4, 4, 4, 5, 5, 5, 5, 5, 6, 6, 6, 6, 7,
   7, 7, 8, 8, 8, 9, 9, 9, 10, 10, 10, 11, 11, 11, 12, 12,
   13, 13, 13, 14, 14, 15, 15, 16, 16, 17, 17, 18, 18, 19, 19, 20,
   20, 21, 21, 22, 22, 23, 24, 24, 25, 25, 26, 27, 27, 28, 29, 29,
   30, 31, 31, 32, 33, 34, 34, 35, 36, 37, 38, 38, 39, 40, 41, 42,
   42, 43, 44, 45, 46, 47, 48, 49, 50, 51, 52, 53, 54, 55, 56, 57,
   58, 59, 60, 61, 62, 63, 64, 65, 66, 68, 69, 70, 71, 72, 73, 75,
   76, 77, 78, 80, 81, 82, 84, 85, 86, 88, 89, 90, 92, 93, 94, 96,
   97, 99, 100, 102, 103, 105, 106, 108, 109, 111, 112, 114, 115, 117, 119, 120,
   122, 124, 125, 127, 129, 130, 132, 134, 136, 137, 139, 141, 143, 145, 146, 148,
   150, 152, 154, 156, 158, 160, 162, 164, 166, 168, 170, 172, 174, 176, 178, 180,
   182, 184, 186, 188, 191, 193, 195, 197, 199, 202, 204, 206, 209, 211, 213, 215,
   218, 220, 223, 225, 227, 230, 232, 235, 237, 240, 242, 245, 247, 250, 252, 255]

/-- `static uint8_t gamma8(uint8_t x)`: the table entry at `x`. -/
def gamma8 (x : Nat) : Nat := _NeoPixelGammaTable.getD (x % 256) 0

/-- The effects of the library as the header names them: the public constant
`FX_MODE_X`, the member function `mode_x` and the display name of effect X. -/
def effects : List (Nat × Mode × String) :=
  [(FX_MODE_STATIC, .mode_static, "Static"),
   (FX_MODE_BLINK, .mode_blink, "Blink"),
   (FX_MODE_BREATH, .mode_breath, "Breath"),
   (FX_MODE_COLOR_WIPE, .mode_color_wipe, "Color Wipe"),
   (FX_MODE_COLOR_WIPE_INV, .mode_color_wipe_inv, "Color Wipe Inverse"),
   (FX_MODE_COLOR_WIPE_REV, .mode_color_wipe_rev, "Color Wipe Reverse"),
   (FX_MODE_COLOR_WIPE_REV_INV, .mode_color_wipe_rev_inv, "Color Wipe Reverse Inverse"),
   (FX_MODE_COLOR_WIPE_RANDOM, .mode_color_wipe_random, "Color Wipe Random"),
   (FX_MODE_RANDOM_COLOR, .mode_random_color, "Random Color"),
   (FX_MODE_SINGLE_DYNAMIC, .mode_single_dynamic, "Single Dynamic"),
   (FX_MODE_MULTI_DYNAMIC, .mode_multi_dynamic, "Multi Dynamic"),
   (FX_MODE_RAINBOW, .mode_rainbow, "Rainbow"),
   (FX_MODE_RAINBOW_CYCLE, .mode_rainbow_cycle, "Rainbow Cycle"),
   (FX_MODE_SCAN, .mode_scan, "Scan"),
   (FX_MODE_DUAL_SCAN, .mode_dual_scan, "Dual Scan"),
   (FX_MODE_FADE, .mode_fade, "Fade"),
   (FX_MODE_THEATER_CHASE, .mode_theater_chase, "Theater Chase"),
   (FX_MODE_THEATER_CHASE_RAINBOW, .mode_theater_chase_rainbow, "Theater Chase Rainbow"),
   (FX_MODE_RUNNING_LIGHTS, .mode_running_lights, "Running Lights"),
   (FX_MODE_TWINKLE, .mode_twinkle, "Twinkle"),
   (FX_MODE_TWINKLE_RANDOM, .mode_twinkle_random, "Twinkle Random"),
   (FX_MODE_TWINKLE_FADE, .mode_twinkle_fade, "Twinkle Fade"),
   (FX_MODE_TWINKLE_FADE_RANDOM, .mode_twinkle_fade_random, "Twinkle Fade Random"),
   (FX_MODE_SPARKLE, .mode_sparkle, "Sparkle"),
   (FX_MODE_FLASH_SPARKLE, .mode_flash_sparkle, "Flash Sparkle"),
   (FX_MODE_HYPER_SPARKLE, .mode_hyper_sparkle, "Hyper Sparkle"),
   (FX_MODE_STROBE, .mode_strobe, "Strobe"),
   (FX_MODE_STROBE_RAINBOW, .mode_strobe_rainbow, "Strobe Rainbow"),
   (FX_MODE_MULTI_STROBE, .mode_multi_strobe, "Multi Strobe"),
   (FX_MODE_BLINK_RAINBOW, .mode_blink_rainbow, "Blink Rainbow"),
   (FX_MODE_CHASE_WHITE, .mode_chase_white, "Chase White"),
   (FX_MODE_CHASE_COLOR, .mode_chase_color, "Chase Color"),
   (FX_MODE_CHASE_RANDOM, .mode_chase_random, "Chase Random"),
   (FX_MODE_CHASE_RAINBOW, .mode_chase_rainbow, "Chase Rainbow"),
   (FX_MODE_CHASE_FLASH, .mode_chase_flash, "Chase Flash"),
   (FX_MODE_CHASE_FLASH_RANDOM, .mode_chase_flash_random, "Chase Flash Random"),
   (FX_MODE_CHASE_RAINBOW_WHITE, .mode_chase_rainbow_white, "Chase Rainbow White"),
   (FX_MODE_CHASE_BLACKOUT, .mode_chase_blackout, "Chase Blackout"),
   (FX_MODE_CHASE_BLACKOUT_RAINBOW, .mode_chase_blackout_rainbow, "Chase Blackout Rainbow"),
   (FX_MODE_COLOR_SWEEP_RANDOM, .mode_color_sweep_random, "Color Sweep Random"),
   (FX_MODE_RUNNING_COLOR, .mode_running_color, "Running Color"),
   (FX_MODE_RUNNING_RED_BLUE, .mode_running_red_blue, "Running Red Blue"),
   (FX_MODE_RUNNING_RANDOM, .mode_running_random, "Running Random"),
   (FX_MODE_LARSON_SCANNER, .mode_larson_scanner, "Larson Scanner"),
   (FX_MODE_COMET, .mode_comet, "Comet"),
   (FX_MODE_FIREWORKS, .mode_fireworks, "Fireworks"),
   (FX_MODE_FIREWORKS_RANDOM, .mode_fireworks_random, "Fireworks Random"),
   (FX_MODE_MERRY_CHRISTMAS, .mode_merry_christmas, "Merry Christmas"),
   (FX_MODE_FIRE_FLICKER, .mode_fire_flicker, "Fire Flicker"),
   (FX_MODE_FIRE_FLICKER_SOFT, .mode_fire_flicker_soft, "Fire Flicker (soft)"),
   (FX_MODE_FIRE_FLICKER_INTENSE, .mode_fire_flicker_intense, "Fire Flicker (intense)"),
   (FX_MODE_CIRCUS_COMBUSTUS, .mode_circus_combustus, "Circus Combustus"),
   (FX_MODE_HALLOWEEN, .mode_halloween, "Halloween"),
   (FX_MODE_BICOLOR_CHASE, .mode_bicolor_chase, "Bicolor Chase"),
   (FX_MODE_TRICOLOR_CHASE, .mode_tricolor_chase, "Tricolor Chase"),
   (FX_MODE_TWINKLEFOX, .mode_twinkleFOX, "TwinkleFOX"),
   (FX_MODE_CUSTOM_0, .mode_custom_0, "Custom 0"),
   (FX_MODE_CUSTOM_1, .mode_custom_1, "Custom 1"),
   (FX_MODE_CUSTOM_2, .mode_custom_2, "Custom 2"),
   (FX_MODE_CUSTOM_3, .mode_custom_3, "Custom 3"),
   (FX_MODE_CUSTOM_4, .mode_custom_4, "Custom 4"),
   (FX_MODE_CUSTOM_5, .mode_custom_5, "Custom 5"),
   (FX_MODE_CUSTOM_6, .mode_custom_6, "Custom 6"),
   (FX_MODE_CUSTOM_7, .mode_custom_7, "Custom 7")]

end WS2812FX

/-! ## A small configuration for evaluating the model -/

namespace WS2812FX

/-- An engine whose `numBytes`-byte pixel buffer holds `byte` everywhere. -/
def solidEngine (byte numBytes : Nat) : Engine where
  _running := true
  _triggered := false
  _segments := []
  _segment_runtimes := []
  _active_segments := []
  drawBuffer := fun _ => byte
  bytesPerPixel := 3
  numBytes := numBytes

end WS2812FX

namespace WS2812FXT

/-- Four RGB pixels: `v1` shows bytes 10, `v2` shows bytes 200, the destination is
dark; the transition fields are as given. -/
def sample (start duration : Nat) (direction : Bool) : WS2812FXT where
  v1 := WS2812FX.solidEngine 10 12
  v2 := WS2812FX.solidEngine 200 12
  dest := WS2812FX.solidEngine 0 12
  transitionStartTime := start
  transitionDuration := duration
  transitionDirection := direction

/-- A `WS2812FXT` on which `startTransition` has not been called: the start time
and the direction are the initialisers of the header (`MAX_MILLIS`, `true`);
the public field `transitionDuration` holds any value. -/
def unstarted (v1 v2 dest : WS2812FX.Engine) (transitionDuration : Nat) : WS2812FXT where
  v1 := v1
  v2 := v2
  dest := dest
  transitionDuration := transitionDuration

end WS2812FXT

/-! ## Arithmetic of the range mapping -/

namespace Arduino

theorem toLong_of_small (z : Int) (h0 : -2147483648 ≤ z) (h1 : z < 2147483648) :
    toLong z = z := by
  unfold toLong
  omega

theorem toLong_sub_toLong (a b : Nat) (hb : b ≤ a) (h : a - b < 2147483648) :
    toLong (toLong (a : Int) - toLong (b : Int)) = ((a - b : Nat) : Int) := by
  unfold toLong
  omega

theorem toUint8_of_small (n : Nat) (h : n ≤ 255) : toUint8 (n : Int) = n := by
  unfold toUint8
  omega

/-- Inside the window, `map(now, start, start + d, 0, 255)` is
`255 * (now - start) / d`. -/
theorem map_window (start d now : Nat) (hd : 1 ≤ d) (hd16 : d < 65536)
    (hle : start ≤ now) (hwin : now - start ≤ d) :
    map (toLong now) (toLong start) (toLong ((start + d : Nat) : Int)) 0 255
      = some ((255 * (now - start) / d : Nat) : Int) := by
  have hspan : toLong (toLong ((start + d : Nat) : Int) - toLong (start : Int))
      = ((d : Nat) : Int) := by
    have := toLong_sub_toLong (start + d) start (by omega) (by omega)
    simpa using this
  have hnum : toLong (toLong (now : Int) - toLong (start : Int))
      = ((now - start : Nat) : Int) :=
    toLong_sub_toLong now start hle (by omega)
  have hq : 255 * (now - start) / d ≤ 255 :=
    Nat.div_le_of_le_mul (by nlinarith)
  have h255 : toLong ((255 : Int) - 0) = 255 := by
    unfold toLong
    omega
  have hprod : toLong (((now - start : Nat) : Int) * 255)
      = ((255 * (now - start) : Nat) : Int) := by
    rw [toLong_of_small] <;> push_cast <;> omega
  have hdiv : Int.tdiv ((255 * (now - start) : Nat) : Int) ((d : Nat) : Int)
      = ((255 * (now - start) / d : Nat) : Int) := by
    rw [Int.tdiv_eq_ediv (Int.ofNat_nonneg _) (Int.ofNat_nonneg _)]
    exact (Int.ofNat_ediv _ _).symm
  unfold map
  rw [hspan, hnum, h255, hprod, hdiv]
  have hd0 : ((d : Nat) : Int) ≠ 0 := by omega
  generalize 255 * (now - start) / d = q at hq
  have hres : toLong (q : Int) = (q : Int) :=
    toLong_of_small _ (by omega) (by omega)
  rw [if_neg hd0, hres, Int.add_zero, hres]

end Arduino

namespace WS2812FXT

open WS2812FX Arduino

theorem addUL_of_lt (a b : Nat) (h : a + b < 4294967296) : addUL a b = a + b := by
  unfold addUL
  exact Nat.mod_eq_of_lt h

theorem blendAmt_window (start d now : Nat) (hd : 1 ≤ d) (hd16 : d < 65536)
    (hle : start ≤ now) (hwin : now - start ≤ d) (hend : start + d < 4294967296) :
    blendAmt start d now = 255 * (now - start) / d := by
  have hq : 255 * (now - start) / d ≤ 255 :=
    Nat.div_le_of_le_mul (by nlinarith)
  unfold blendAmt
  rw [addUL_of_lt _ _ hend, map_window start d now hd hd16 hle hwin]
  exact toUint8_of_small _ hq

end WS2812FXT

/-! ## The three branches of `_show` -/

namespace WS2812FXT

open WS2812FX Arduino

theorem show_dest_eq (now : Nat) (t : WS2812FXT) :
    (_show now t).dest.getPixels =
      match showStep t.transitionStartTime t.transitionDuration now with
      | .copyStart => memmove t.dest.getPixels t.vstart_p t.dest.getNumBytes
      | .copyStop => memmove t.dest.getPixels t.vstop_p t.dest.getNumBytes
      | .blend amt => blend t.dest.getPixels t.vstart_p t.vstop_p t.dest.getNumBytes amt := by
  rfl

theorem showStep_before (start d now : Nat) (h : now < start) :
    showStep start d now = ShowStep.copyStart := by
  unfold showStep
  rw [if_pos h]

theorem showStep_after (start d now : Nat) (hnow : now < 4294967296) (h : start + d < now) :
    showStep start d now = ShowStep.copyStop := by
  unfold showStep
  rw [addUL_of_lt _ _ (by omega), if_neg (by omega), if_pos (by omega)]

theorem showStep_window (start d now : Nat) (hd : 1 ≤ d) (hd16 : d < 65536)
    (hle : start ≤ now) (hwin : now - start ≤ d) (hend : start + d < 4294967296) :
    showStep start d now = ShowStep.blend (255 * (now - start) / d) := by
  unfold showStep
  rw [blendAmt_window start d now hd hd16 hle hwin hend, addUL_of_lt _ _ hend,
    if_neg (by omega), if_neg (by omega)]

theorem midpoint_amount (d : Nat) (hd : 1 ≤ d) (heven : d % 2 = 0) :
    255 * (d / 2) / d = 127 := by
  apply Nat.div_eq_of_lt_le
  · omega
  · show 255 * (d / 2) < (127 + 1) * d
    omega

theorem tdiv_255 (x : Int) :
    Int.tdiv x 255 = if 0 ≤ x then x / 255 else -((-x) / 255) := by
  split
  · exact Int.tdiv_eq_ediv (by assumption) (by decide)
  · rw [← Int.tdiv_eq_ediv (by omega) (by decide), Int.neg_tdiv, Int.neg_neg]

theorem blendByte_zero (a b : Nat) : blendByte a b 0 = a := by
  simp [blendByte]

theorem blendByte_full (a b : Nat) : blendByte a b 255 = b := by
  unfold blendByte
  rw [Nat.cast_ofNat, Int.mul_tdiv_cancel _ (by decide)]
  omega

theorem blendByte_half (a b : Nat) (ha : a ≤ 255) (hb : b ≤ 255) :
    a + b ≤ 2 * blendByte a b 127 + 2 ∧ 2 * blendByte a b 127 ≤ a + b + 2 := by
  unfold blendByte
  rw [tdiv_255]
  split <;> omega

end WS2812FXT

/-! ## Verified statements: the crossfade window -/

namespace WS2812FXT

open WS2812FX Arduino

/-- C1, as stated, fails: with start 4294965000, duration 5000 and clock reading
4294966000 (one second into the window) the window's end wraps around the
32-bit clock to 2704, `_show` takes the copy-"to" branch, and the destination
holds the bytes of `v2` instead of a blend of amount 51. -/
theorem show_blend_amount_wrap_counterexample :
    (4294965000 < 4294967296 ∧ 4294966000 < 4294967296 ∧ 1 ≤ 5000 ∧
      4294965000 ≤ 4294966000 ∧ 4294966000 - 4294965000 ≤ 5000) ∧
    addUL 4294965000 5000 = 2704 ∧
    showStep 4294965000 5000 4294966000 = ShowStep.copyStop ∧
    showStep 4294965000 5000 4294966000
      ≠ ShowStep.blend (255 * (4294966000 - 4294965000) / 5000) ∧
    (_show 4294966000 (sample 4294965000 5000 true)).dest.getPixels 0 = 200 := by
  decide

/-- C1 (amended): for a start time, a duration `1 ≤ d ≤ 65535` and a clock reading
`now` with `start ≤ now`, `now - start ≤ d` and `start + d < 2 ^ 32` (the window
does not wrap around the clock), `_show` takes the blend branch, the amount it
passes to `blend` is `255 * (now - start) / d` (natural-number division), that
amount is at most 255 and the conversion to `uint8_t` leaves it unchanged. -/
theorem show_blend_amount (now : Nat) (t : WS2812FXT)
    (hd : 1 ≤ t.transitionDuration) (hd16 : t.transitionDuration < 65536)
    (hle : t.transitionStartTime ≤ now)
    (hwin : now - t.transitionStartTime ≤ t.transitionDuration)
    (hend : t.transitionStartTime + t.transitionDuration < 4294967296) :
    showStep t.transitionStartTime t.transitionDuration now
      = ShowStep.blend (255 * (now - t.transitionStartTime) / t.transitionDuration) ∧
    (_show now t).dest.getPixels
      = blend t.dest.getPixels t.vstart_p t.vstop_p t.dest.getNumBytes
          (255 * (now - t.transitionStartTime) / t.transitionDuration) ∧
    255 * (now - t.transitionStartTime) / t.transitionDuration ≤ 255 ∧
    toUint8 ((255 * (now - t.transitionStartTime) / t.transitionDuration : Nat) : Int)
      = 255 * (now - t.transitionStartTime) / t.transitionDuration := by
  have hstep := showStep_window _ _ now hd hd16 hle hwin hend
  have hq : 255 * (now - t.transitionStartTime) / t.transitionDuration ≤ 255 :=
    Nat.div_le_of_le_mul (by nlinarith)
  refine ⟨hstep, ?_, hq, toUint8_of_small _ hq⟩
  rw [show_dest_eq, hstep]

/-- C1 (amended), evaluated one second into a five-second transition. -/
theorem show_blend_amount_witness :
    showStep 1000 5000 2000 = ShowStep.blend (255 * (2000 - 1000) / 5000) :=
  (show_blend_amount 2000 (sample 1000 5000 true) (by decide) (by decide) (by decide)
    (by decide) (by decide)).1

/-- C2: when `now < transitionStartTime`, `_show` takes the first branch: the
destination becomes `memmove(dest_p, vstart_p, numBytes)`, so each of its
`getNumBytes()` bytes equals the byte of the "from" buffer; nothing is blended,
and a state with the same destination and "from" buffer whose window has not
opened either gives the same destination, whatever its "to" buffer and
duration are. -/
theorem show_before_window (now : Nat) (t : WS2812FXT) (h : now < t.transitionStartTime) :
    showStep t.transitionStartTime t.transitionDuration now = ShowStep.copyStart ∧
    (_show now t).dest.getPixels = memmove t.dest.getPixels t.vstart_p t.dest.getNumBytes ∧
    (∀ i, i < t.dest.getNumBytes → (_show now t).dest.getPixels i = t.vstart_p i) ∧
    (∀ u : WS2812FXT, u.dest = t.dest → u.vstart_p = t.vstart_p →
      now < u.transitionStartTime → (_show now u).dest = (_show now t).dest) := by
  have hstep := showStep_before t.transitionStartTime t.transitionDuration now h
  have hdest : (_show now t).dest.getPixels
      = memmove t.dest.getPixels t.vstart_p t.dest.getNumBytes := by
    rw [show_dest_eq, hstep]
  refine ⟨hstep, hdest, ?_, ?_⟩
  · intro i hi
    rw [hdest]
    simp [memmove, hi]
  · intro u hdu hvu hu
    have hstepu := showStep_before u.transitionStartTime u.transitionDuration now hu
    simp only [_show, flushDest, hstep, hstepu, hdu, hvu]

/-- C2, evaluated half a second before a transition from `v1` to `v2` opens. -/
theorem show_before_window_witness :
    500 < (sample 1000 5000 true).transitionStartTime ∧
    ∀ i, i < 12 → (_show 500 (sample 1000 5000 true)).dest.getPixels i = 10 :=
  ⟨by decide, (show_before_window 500 (sample 1000 5000 true) (by decide)).2.2.1⟩

/-- C3: when `now > transitionStartTime + transitionDuration` (as numbers; `now`
is a 32-bit clock reading), `_show` takes the second branch: the destination
becomes `memmove(dest_p, vstop_p, numBytes)`, so each of its `getNumBytes()`
bytes equals the byte of the "to" buffer, and a state with the same
destination and "to" buffer whose window has closed too gives the same
destination, whatever its "from" buffer is. -/
theorem show_after_window (now : Nat) (t : WS2812FXT) (hnow : now < 4294967296)
    (h : t.transitionStartTime + t.transitionDuration < now) :
    showStep t.transitionStartTime t.transitionDuration now = ShowStep.copyStop ∧
    (_show now t).dest.getPixels = memmove t.dest.getPixels t.vstop_p t.dest.getNumBytes ∧
    (∀ i, i < t.dest.getNumBytes → (_show now t).dest.getPixels i = t.vstop_p i) ∧
    (∀ u : WS2812FXT, u.dest = t.dest → u.vstop_p = t.vstop_p →
      u.transitionStartTime + u.transitionDuration < now →
      (_show now u).dest = (_show now t).dest) := by
  have hstep := showStep_after t.transitionStartTime t.transitionDuration now hnow h
  have hdest : (_show now t).dest.getPixels
      = memmove t.dest.getPixels t.vstop_p t.dest.getNumBytes := by
    rw [show_dest_eq, hstep]
  refine ⟨hstep, hdest, ?_, ?_⟩
  · intro i hi
    rw [hdest]
    simp [memmove, hi]
  · intro u hdu hvu hu
    have hstepu := showStep_after u.transitionStartTime u.transitionDuration now hnow hu
    simp only [_show, flushDest, hstep, hstepu, hdu, hvu]

/-- C3, evaluated one second after a transition from `v1` to `v2` has ended. -/
theorem show_after_window_witness :
    (7000 < 4294967296 ∧
      (sample 1000 5000 true).transitionStartTime
        + (sample 1000 5000 true).transitionDuration < 7000) ∧
    ∀ i, i < 12 → (_show 7000 (sample 1000 5000 true)).dest.getPixels i = 200 :=
  ⟨by decide,
    (show_after_window 7000 (sample 1000 5000 true) (by decide) (by decide)).2.2.1⟩

end WS2812FXT

/-! ## Verified statements: the ends and the midpoint of the window -/

namespace WS2812FXT

open WS2812FX Arduino

/-- C4, as stated, fails: with start 4294965000 and duration 5000 the window's end
wraps around the 32-bit clock, so at `now == start` `_show` does not blend with
amount 0 but copies the "to" buffer: the destination holds the bytes of `v2`
(200), not those of the "from" instance `v1` (10). -/
theorem show_at_start_wrap_counterexample :
    (4294965000 < 4294967296 ∧ 1 ≤ 5000) ∧
    showStep 4294965000 5000 4294965000 = ShowStep.copyStop ∧
    showStep 4294965000 5000 4294965000 ≠ ShowStep.blend 0 ∧
    (sample 4294965000 5000 true).vstart_p 0 = 10 ∧
    (_show 4294965000 (sample 4294965000 5000 true)).dest.getPixels 0 = 200 := by
  decide

/-- C4 (amended): for a start time and a duration `1 ≤ d ≤ 65535` with
`start + d < 2 ^ 32` (the window does not wrap around the clock): at
`now == start` `_show` blends with amount 0 and every destination byte is the
"from" byte; at `now == start + d` it blends with amount 255 and every
destination byte is the "to" byte; for even `d`, at `now == start + d / 2` the
amount is 127, which is within 1 of half of 255, and every destination byte is
within 1 of the arithmetic mean of the corresponding "from" and "to" bytes. -/
theorem show_window_ends_and_midpoint (t : WS2812FXT)
    (hd : 1 ≤ t.transitionDuration) (hd16 : t.transitionDuration < 65536)
    (hend : t.transitionStartTime + t.transitionDuration < 4294967296) :
    (showStep t.transitionStartTime t.transitionDuration t.transitionStartTime
        = ShowStep.blend 0 ∧
      ∀ i, i < t.dest.getNumBytes →
        (_show t.transitionStartTime t).dest.getPixels i = t.vstart_p i) ∧
    (showStep t.transitionStartTime t.transitionDuration
        (t.transitionStartTime + t.transitionDuration) = ShowStep.blend 255 ∧
      ∀ i, i < t.dest.getNumBytes →
        (_show (t.transitionStartTime + t.transitionDuration) t).dest.getPixels i
          = t.vstop_p i) ∧
    (t.transitionDuration % 2 = 0 →
      showStep t.transitionStartTime t.transitionDuration
        (t.transitionStartTime + t.transitionDuration / 2) = ShowStep.blend 127 ∧
      (2 * 127 ≤ 255 ∧ 255 ≤ 2 * 127 + 2) ∧
      ∀ i, i < t.dest.getNumBytes → t.vstart_p i ≤ 255 → t.vstop_p i ≤ 255 →
        t.vstart_p i + t.vstop_p i
          ≤ 2 * (_show (t.transitionStartTime + t.transitionDuration / 2) t).dest.getPixels i
            + 2 ∧
        2 * (_show (t.transitionStartTime + t.transitionDuration / 2) t).dest.getPixels i
          ≤ t.vstart_p i + t.vstop_p i + 2) := by
  have h0 : showStep t.transitionStartTime t.transitionDuration t.transitionStartTime
      = ShowStep.blend 0 := by
    have := showStep_window t.transitionStartTime t.transitionDuration t.transitionStartTime
      hd hd16 (Nat.le_refl _) (by omega) hend
    simpa using this
  have h1 : showStep t.transitionStartTime t.transitionDuration
      (t.transitionStartTime + t.transitionDuration) = ShowStep.blend 255 := by
    have := showStep_window t.transitionStartTime t.transitionDuration
      (t.transitionStartTime + t.transitionDuration) hd hd16 (by omega) (by omega) hend
    rw [this, Nat.add_sub_cancel_left, Nat.mul_div_cancel _ (by omega)]
  refine ⟨⟨h0, ?_⟩, ⟨h1, ?_⟩, ?_⟩
  · intro i hi
    rw [show_dest_eq, h0]
    simp [blend, hi, blendByte_zero]
  · intro i hi
    rw [show_dest_eq, h1]
    simp [blend, hi, blendByte_full]
  · intro heven
    have h2 : showStep t.transitionStartTime t.transitionDuration
        (t.transitionStartTime + t.transitionDuration / 2) = ShowStep.blend 127 := by
      have := showStep_window t.transitionStartTime t.transitionDuration
        (t.transitionStartTime + t.transitionDuration / 2) hd hd16 (by omega) (by omega) hend
      rw [this, Nat.add_sub_cancel_left, midpoint_amount _ hd heven]
    refine ⟨h2, by decide, ?_⟩
    intro i hi ha hb
    rw [show_dest_eq, h2]
    simp only [blend, hi, if_true]
    exact blendByte_half _ _ ha hb

/-- C4 (amended), evaluated on a five-second transition from `v1` (bytes 10) to
`v2` (bytes 200) that starts at 1000: the ends give 10 and 200. -/
theorem show_window_ends_and_midpoint_witness :
    (1 ≤ (sample 1000 5000 true).transitionDuration ∧
      (sample 1000 5000 true).transitionDuration < 65536 ∧
      (sample 1000 5000 true).transitionStartTime
        + (sample 1000 5000 true).transitionDuration < 4294967296) ∧
    showStep 1000 5000 1000 = ShowStep.blend 0 ∧
    showStep 1000 5000 (1000 + 5000) = ShowStep.blend 255 :=
  ⟨by decide,
    (show_window_ends_and_midpoint (sample 1000 5000 true) (by decide) (by decide)
      (by decide)).1.1,
    (show_window_ends_and_midpoint (sample 1000 5000 true) (by decide) (by decide)
      (by decide)).2.1.1⟩

end WS2812FXT

/-! ## Verified statements: `service` and `startTransition` -/

namespace WS2812FXT

open WS2812FX Arduino

theorem show_trace (now : Nat) (t : WS2812FXT) :
    (_show now t).trace = t.trace ++ [Event.flush] := by
  rfl

theorem show_inner (now : Nat) (t : WS2812FXT) :
    (_show now t).v1 = t.v1 ∧ (_show now t).v2 = t.v2 := by
  exact ⟨rfl, rfl⟩

theorem doShow_fst (service1 service2 : Engine → Bool × Engine) (t : WS2812FXT) :
    (doShow service1 service2 t).1 = ((service1 t.v1).1 || (service2 t.v2).1) := by
  unfold doShow
  cases h : (service1 t.v1).1 <;> simp [h]

theorem doShow_trace (service1 service2 : Engine → Bool × Engine) (t : WS2812FXT) :
    (doShow service1 service2 t).2.trace
      = if (service1 t.v1).1 then t.trace ++ [Event.serviceV1]
        else t.trace ++ [Event.serviceV1] ++ [Event.serviceV2] := by
  unfold doShow
  cases h : (service1 t.v1).1 <;> simp [h]

theorem doShow_dest (service1 service2 : Engine → Bool × Engine) (t : WS2812FXT) :
    (doShow service1 service2 t).2.dest = t.dest := by
  unfold doShow
  cases h : (service1 t.v1).1 <;> simp [h]

theorem doShow_v2 (service1 service2 : Engine → Bool × Engine) (t : WS2812FXT) :
    (doShow service1 service2 t).2.v2
      = if (service1 t.v1).1 then t.v2 else (service2 t.v2).2 := by
  unfold doShow
  cases h : (service1 t.v1).1 <;> simp [h]

theorem service_trace (service1 service2 : Engine → Bool × Engine) (now : Nat)
    (t : WS2812FXT) :
    (service service1 service2 now t).trace
      = if (service1 t.v1).1 then t.trace ++ [Event.serviceV1, Event.flush]
        else if (service2 t.v2).1 then
          t.trace ++ [Event.serviceV1, Event.serviceV2, Event.flush]
        else t.trace ++ [Event.serviceV1, Event.serviceV2] := by
  unfold service
  have h1 := doShow_fst service1 service2 t
  have h2 := doShow_trace service1 service2 t
  cases ha : (service1 t.v1).1 <;> cases hb : (service2 t.v2).1 <;>
    simp [ha, hb] at h1 h2 <;> simp [h1, h2, ha, hb, show_trace]

/-- The calls of the inner `service` methods in one call of
`WS2812FXT::service`: `v1->service()` runs once; `v2->service()` runs once when
`v1->service()` returned false and not at all when it returned true, in which
case `v2` is left as it was. -/
theorem service_inner_calls (service1 service2 : Engine → Bool × Engine) (now : Nat)
    (t : WS2812FXT) :
    (service service1 service2 now t).trace.count Event.serviceV1
      = t.trace.count Event.serviceV1 + 1 ∧
    (service service1 service2 now t).trace.count Event.serviceV2
      = t.trace.count Event.serviceV2 + (if (service1 t.v1).1 then 0 else 1) ∧
    (service service1 service2 now t).v2
      = if (service1 t.v1).1 then t.v2 else (service2 t.v2).2 := by
  refine ⟨?_, ?_, ?_⟩
  · rw [service_trace]
    cases (service1 t.v1).1 <;> cases (service2 t.v2).1 <;> simp [List.count_append]
  · rw [service_trace]
    cases (service1 t.v1).1 <;> cases (service2 t.v2).1 <;> simp [List.count_append]
  · have h := doShow_v2 service1 service2 t
    unfold service
    cases hs : (doShow service1 service2 t).1
    · simpa [hs] using h
    · simpa [hs, show_inner] using h

/-- C5 fails on the code: when `v1->service()` returns true, the `||` of
`WS2812FXT::service` does not evaluate `v2->service()`. Here both inner services
report a dirty buffer and the second would overwrite its pixels with 77; after
the tick the trace holds one call for `v1`, none for `v2`, and `v2` still shows
200. -/
theorem service_skips_v2_when_v1_dirty :
    (service (fun e => (true, e)) (fun e => (true, { e with drawBuffer := fun _ => 77 }))
        2000 (sample 1000 5000 true)).trace
      = [Event.serviceV1, Event.flush] ∧
    (service (fun e => (true, e)) (fun e => (true, { e with drawBuffer := fun _ => 77 }))
        2000 (sample 1000 5000 true)).trace.count Event.serviceV2 = 0 ∧
    (service (fun e => (true, e)) (fun e => (true, { e with drawBuffer := fun _ => 77 }))
        2000 (sample 1000 5000 true)).v2.getPixels 0 = 200 := by
  decide

/-- C6: `WS2812FXT::service` runs `_show` exactly once, on the state the inner
services left, when `v1->service()` or `v2->service()` reported a dirty buffer,
and not at all otherwise; the inner services leave the destination engine
alone; every run of `_show` ends in exactly one flush, whichever branch it
takes; so the tick flushes once if a dirty buffer was reported and otherwise
leaves the destination unchanged and flushes nothing. -/
theorem service_shows_iff_dirty (service1 service2 : Engine → Bool × Engine) (now : Nat)
    (t : WS2812FXT) :
    service service1 service2 now t
      = (if (service1 t.v1).1 || (service2 t.v2).1
          then _show now (doShow service1 service2 t).2
          else (doShow service1 service2 t).2) ∧
    (doShow service1 service2 t).2.dest = t.dest ∧
    (doShow service1 service2 t).2.trace.count Event.flush = t.trace.count Event.flush ∧
    (∀ u : WS2812FXT, (_show now u).trace = u.trace ++ [Event.flush]) ∧
    (service service1 service2 now t).trace.count Event.flush
      = t.trace.count Event.flush
        + (if (service1 t.v1).1 || (service2 t.v2).1 then 1 else 0) ∧
    (service service1 service2 now t).dest
      = (if (service1 t.v1).1 || (service2 t.v2).1
          then (_show now (doShow service1 service2 t).2).dest
          else t.dest) := by
  have hfst := doShow_fst service1 service2 t
  have hrun : service service1 service2 now t
      = (if (service1 t.v1).1 || (service2 t.v2).1
          then _show now (doShow service1 service2 t).2
          else (doShow service1 service2 t).2) := by
    unfold service
    rw [← hfst]
  refine ⟨hrun, doShow_dest _ _ _, ?_, fun u => show_trace now u, ?_, ?_⟩
  · rw [doShow_trace]
    cases (service1 t.v1).1 <;> simp [List.count_append]
  · rw [service_trace]
    cases (service1 t.v1).1 <;> cases (service2 t.v2).1 <;> simp [List.count_append]
  · rw [hrun]
    cases (service1 t.v1).1 || (service2 t.v2).1
    · simpa using doShow_dest service1 service2 t
    · simp

/-- C7: `startTransition(d, dir)` at clock reading `now`, for a `uint16_t` value
`d`, records `now`, `d` and `dir` and leaves `v1`, `v2` and the destination as
they were; a later `_show` reads its "from" buffer from `v1` and its "to" buffer
from `v2` when `dir` is true, and the other way round when `dir` is false; the
two are never the same instance. -/
theorem startTransition_records (now d : Nat) (dir : Bool) (t : WS2812FXT)
    (hd : d < 65536) :
    (startTransition now d dir t).transitionStartTime = now ∧
    (startTransition now d dir t).transitionDuration = d ∧
    (startTransition now d dir t).transitionDirection = dir ∧
    (startTransition now d dir t).v1 = t.v1 ∧
    (startTransition now d dir t).v2 = t.v2 ∧
    (startTransition now d dir t).dest = t.dest ∧
    (startTransition now d true t).vstart_p = t.v1.getPixels ∧
    (startTransition now d true t).vstop_p = t.v2.getPixels ∧
    (startTransition now d false t).vstart_p = t.v2.getPixels ∧
    (startTransition now d false t).vstop_p = t.v1.getPixels ∧
    vstart dir ≠ vstop dir ∧
    (∀ later : Nat, (_show later (startTransition now d dir t)).dest.getPixels =
      match showStep now d later with
      | .copyStart =>
        memmove t.dest.getPixels (t.inst (vstart dir)).getPixels t.dest.getNumBytes
      | .copyStop =>
        memmove t.dest.getPixels (t.inst (vstop dir)).getPixels t.dest.getNumBytes
      | .blend amt =>
        blend t.dest.getPixels (t.inst (vstart dir)).getPixels
          (t.inst (vstop dir)).getPixels t.dest.getNumBytes amt) := by
  have hmod : d % 65536 = d := Nat.mod_eq_of_lt hd
  refine ⟨rfl, hmod, rfl, rfl, rfl, rfl, rfl, rfl, rfl, rfl, ?_, ?_⟩
  · cases dir <;> decide
  · intro later
    rw [show_dest_eq]
    simp only [startTransition, hmod]
    cases dir <;> rfl

/-- C7, evaluated for `startTransition(3000, false)` at clock reading 42. -/
theorem startTransition_records_witness :
    3000 < 65536 ∧
    (startTransition 42 3000 false (sample 1000 5000 true)).transitionStartTime = 42 ∧
    (startTransition 42 3000 false (sample 1000 5000 true)).transitionDuration = 3000 :=
  ⟨by decide,
    (startTransition_records 42 3000 false (sample 1000 5000 true) (by decide)).1,
    (startTransition_records 42 3000 false (sample 1000 5000 true) (by decide)).2.1⟩

end WS2812FXT

/-! ## Verified statements: the options byte and the mode tables -/

namespace WS2812FX

set_option maxRecDepth 100000 in
theorem options_pack_decode :
    ∀ o, o < 256 →
      bit (IS_REVERSE o) < 2 ∧ FADE_RATE o < 8 ∧ bit (IS_GAMMA o) < 2 ∧
      SIZE_OPTION o < 4 ∧ o % 2 < 2 ∧
      packOptions (bit (IS_REVERSE o)) (FADE_RATE o) (bit (IS_GAMMA o)) (SIZE_OPTION o)
        (o % 2) = o := by
  decide

theorem packOptions_lt (reverse fade gamma size r : Nat) (h1 : reverse < 2) (h2 : fade < 8)
    (h3 : gamma < 2) (h4 : size < 4) (h5 : r < 2) :
    packOptions reverse fade gamma size r < 256 := by
  unfold packOptions
  omega

theorem packOptions_inj (a b c d e a' b' c' d' e' : Nat)
    (h2 : b < 8) (h3 : c < 2) (h4 : d < 4) (h5 : e < 2)
    (h2' : b' < 8) (h3' : c' < 2) (h4' : d' < 4) (h5' : e' < 2)
    (h : packOptions a b c d e = packOptions a' b' c' d' e') :
    a = a' ∧ b = b' ∧ c = c' ∧ d = d' ∧ e = e' := by
  unfold packOptions at h
  omega

theorem options_decode_pack (reverse fade gamma size r : Nat) (h1 : reverse < 2)
    (h2 : fade < 8) (h3 : gamma < 2) (h4 : size < 4) (h5 : r < 2) :
    bit (IS_REVERSE (packOptions reverse fade gamma size r)) = reverse ∧
    FADE_RATE (packOptions reverse fade gamma size r) = fade ∧
    bit (IS_GAMMA (packOptions reverse fade gamma size r)) = gamma ∧
    SIZE_OPTION (packOptions reverse fade gamma size r) = size ∧
    packOptions reverse fade gamma size r % 2 = r := by
  have hlt := packOptions_lt reverse fade gamma size r h1 h2 h3 h4 h5
  obtain ⟨g1, g2, g3, g4, g5, g⟩ := options_pack_decode _ hlt
  exact packOptions_inj _ _ _ _ _ _ _ _ _ _ g2 g3 g4 g5 h2 h3 h4 h5 g

/-- C8: the options byte is a bit-exact packing. For `reverse`, `gamma`, `r` in
0..1, `fade` in 0..7 and `size` in 0..3 the byte
`128*reverse + 16*fade + 8*gamma + 2*size + r` is below 256 and decodes back:
`IS_REVERSE` gives `reverse`, `FADE_RATE` gives `fade`, `IS_GAMMA` gives `gamma`,
`SIZE_OPTION` gives `size` (and the lowest bit is `r`). No other tuple in range
packs to the same byte, every byte below 256 is the packing of the tuple it
decodes to, and a second tuple that agrees in one field decodes to the same
value in that field, whatever its other fields are. -/
theorem options_byte_packing (reverse fade gamma size r : Nat) (h1 : reverse < 2)
    (h2 : fade < 8) (h3 : gamma < 2) (h4 : size < 4) (h5 : r < 2) :
    (packOptions reverse fade gamma size r < 256 ∧
      bit (IS_REVERSE (packOptions reverse fade gamma size r)) = reverse ∧
      FADE_RATE (packOptions reverse fade gamma size r) = fade ∧
      bit (IS_GAMMA (packOptions reverse fade gamma size r)) = gamma ∧
      SIZE_OPTION (packOptions reverse fade gamma size r) = size ∧
      packOptions reverse fade gamma size r % 2 = r) ∧
    (∀ reverse2 fade2 gamma2 size2 r2, reverse2 < 2 → fade2 < 8 → gamma2 < 2 → size2 < 4 →
      r2 < 2 →
      (packOptions reverse2 fade2 gamma2 size2 r2 = packOptions reverse fade gamma size r →
        reverse2 = reverse ∧ fade2 = fade ∧ gamma2 = gamma ∧ size2 = size ∧ r2 = r) ∧
      (reverse2 = reverse → IS_REVERSE (packOptions reverse2 fade2 gamma2 size2 r2)
        = IS_REVERSE (packOptions reverse fade gamma size r)) ∧
      (fade2 = fade → FADE_RATE (packOptions reverse2 fade2 gamma2 size2 r2)
        = FADE_RATE (packOptions reverse fade gamma size r)) ∧
      (gamma2 = gamma → IS_GAMMA (packOptions reverse2 fade2 gamma2 size2 r2)
        = IS_GAMMA (packOptions reverse fade gamma size r)) ∧
      (size2 = size → SIZE_OPTION (packOptions reverse2 fade2 gamma2 size2 r2)
        = SIZE_OPTION (packOptions reverse fade gamma size r))) ∧
    (∀ o, o < 256 →
      bit (IS_REVERSE o) < 2 ∧ FADE_RATE o < 8 ∧ bit (IS_GAMMA o) < 2 ∧
      SIZE_OPTION o < 4 ∧ o % 2 < 2 ∧
      packOptions (bit (IS_REVERSE o)) (FADE_RATE o) (bit (IS_GAMMA o)) (SIZE_OPTION o)
        (o % 2) = o) := by
  have hdec := options_decode_pack reverse fade gamma size r h1 h2 h3 h4 h5
  refine ⟨⟨packOptions_lt _ _ _ _ _ h1 h2 h3 h4 h5, hdec⟩, ?_, options_pack_decode⟩
  intro reverse2 fade2 gamma2 size2 r2 k1 k2 k3 k4 k5
  have hdec2 := options_decode_pack reverse2 fade2 gamma2 size2 r2 k1 k2 k3 k4 k5
  refine ⟨fun h => packOptions_inj _ _ _ _ _ _ _ _ _ _ k2 k3 k4 k5 h2 h3 h4 h5 h, ?_, ?_, ?_, ?_⟩
  · intro h
    have : bit (IS_REVERSE (packOptions reverse2 fade2 gamma2 size2 r2))
        = bit (IS_REVERSE (packOptions reverse fade gamma size r)) :=
      hdec2.1.trans (h.trans hdec.1.symm)
    revert this
    cases IS_REVERSE (packOptions reverse2 fade2 gamma2 size2 r2) <;>
      cases IS_REVERSE (packOptions reverse fade gamma size r) <;> simp [bit]
  · intro h
    rw [hdec.2.1, hdec2.2.1, h]
  · intro h
    have : bit (IS_GAMMA (packOptions reverse2 fade2 gamma2 size2 r2))
        = bit (IS_GAMMA (packOptions reverse fade gamma size r)) :=
      hdec2.2.2.1.trans (h.trans hdec.2.2.1.symm)
    revert this
    cases IS_GAMMA (packOptions reverse2 fade2 gamma2 size2 r2) <;>
      cases IS_GAMMA (packOptions reverse fade gamma size r) <;> simp [bit]
  · intro h
    rw [hdec.2.2.2.1, hdec2.2.2.2.1, h]

/-- C8, evaluated for reverse 1, fade 5, gamma 0, size 2, reserved bit 1: the byte
is 213 and decodes back. -/
theorem options_byte_packing_witness :
    ((1 : Nat) < 2 ∧ (5 : Nat) < 8 ∧ (0 : Nat) < 2 ∧ (2 : Nat) < 4 ∧ (1 : Nat) < 2) ∧
    packOptions 1 5 0 2 1 < 256 ∧
    bit (IS_REVERSE (packOptions 1 5 0 2 1)) = 1 ∧
    FADE_RATE (packOptions 1 5 0 2 1) = 5 ∧
    bit (IS_GAMMA (packOptions 1 5 0 2 1)) = 0 ∧
    SIZE_OPTION (packOptions 1 5 0 2 1) = 2 ∧
    packOptions 1 5 0 2 1 % 2 = 1 :=
  ⟨by decide,
    (options_byte_packing 1 5 0 2 1 (by decide) (by decide) (by decide) (by decide)
      (by decide)).1⟩

/-- C9: the named option constants occupy only their documented field. `REVERSE`
is bit 7 and `GAMMA` is bit 3, and neither shows in another field;
`FADE_XFAST .. FADE_GLACIAL` decode through `FADE_RATE` to 1..7 in that order and
have no bits outside bits 4-6; `SIZE_SMALL .. SIZE_XLARGE` decode through
`SIZE_OPTION` to 0..3 and have no bits outside bits 1-2; `NO_OPTIONS` decodes to
not reversed, fade 0, no gamma, size 0; and the bitwise OR of one constant
from each field decodes in every field to the chosen constant. -/
theorem option_constants_fields :
    (REVERSE = 2 ^ 7 ∧ GAMMA = 2 ^ 3) ∧
    (IS_REVERSE REVERSE = true ∧ FADE_RATE REVERSE = 0 ∧ IS_GAMMA REVERSE = false ∧
      SIZE_OPTION REVERSE = 0) ∧
    (IS_REVERSE GAMMA = false ∧ FADE_RATE GAMMA = 0 ∧ IS_GAMMA GAMMA = true ∧
      SIZE_OPTION GAMMA = 0) ∧
    ([FADE_XFAST, FADE_FAST, FADE_MEDIUM, FADE_SLOW, FADE_XSLOW, FADE_XXSLOW,
        FADE_GLACIAL].map FADE_RATE = [1, 2, 3, 4, 5, 6, 7]) ∧
    (∀ c ∈ [FADE_XFAST, FADE_FAST, FADE_MEDIUM, FADE_SLOW, FADE_XSLOW, FADE_XXSLOW,
        FADE_GLACIAL],
      c &&& 0b01110000 = c ∧ IS_REVERSE c = false ∧ IS_GAMMA c = false ∧
        SIZE_OPTION c = 0) ∧
    ([SIZE_SMALL, SIZE_MEDIUM, SIZE_LARGE, SIZE_XLARGE].map SIZE_OPTION = [0, 1, 2, 3]) ∧
    (∀ c ∈ [SIZE_SMALL, SIZE_MEDIUM, SIZE_LARGE, SIZE_XLARGE],
      c &&& 0b00000110 = c ∧ IS_REVERSE c = false ∧ FADE_RATE c = 0 ∧
        IS_GAMMA c = false) ∧
    (IS_REVERSE NO_OPTIONS = false ∧ FADE_RATE NO_OPTIONS = 0 ∧
      IS_GAMMA NO_OPTIONS = false ∧ SIZE_OPTION NO_OPTIONS = 0) ∧
    (∀ rv ∈ [NO_OPTIONS, REVERSE],
      ∀ fd ∈ [NO_OPTIONS, FADE_XFAST, FADE_FAST, FADE_MEDIUM, FADE_SLOW, FADE_XSLOW,
        FADE_XXSLOW, FADE_GLACIAL],
      ∀ gm ∈ [NO_OPTIONS, GAMMA],
      ∀ sz ∈ [SIZE_SMALL, SIZE_MEDIUM, SIZE_LARGE, SIZE_XLARGE],
        IS_REVERSE (rv ||| fd ||| gm ||| sz) = IS_REVERSE rv ∧
        FADE_RATE (rv ||| fd ||| gm ||| sz) = FADE_RATE fd ∧
        IS_GAMMA (rv ||| fd ||| gm ||| sz) = IS_GAMMA gm ∧
        SIZE_OPTION (rv ||| fd ||| gm ||| sz) = SIZE_OPTION sz) := by
  decide

set_option maxRecDepth 100000 in
/-- C10: `_modes` and `_names` have 64 entries each and `MODE_COUNT` is 64, so every
identifier 0..63 has a render function and a display name; the last
`MAX_CUSTOM_MODES = 8` identifiers are `FX_MODE_CUSTOM_0 .. FX_MODE_CUSTOM_7`
= 56..63, their entries are `mode_custom_0 .. mode_custom_7` with the names
"Custom 0" .. "Custom 7", and no entry below 56 is a custom function or bears
a custom name. -/
theorem mode_tables_custom_block :
    (_modes.length = 64 ∧ _names.length = 64 ∧ MODE_COUNT = 64 ∧ MAX_CUSTOM_MODES = 8) ∧
    (∀ m, m < 64 → (_modes[m]?).isSome = true ∧ (_names[m]?).isSome = true) ∧
    (customIds = [56, 57, 58, 59, 60, 61, 62, 63] ∧
      FX_MODE_CUSTOM = FX_MODE_CUSTOM_0 ∧
      MODE_COUNT - MAX_CUSTOM_MODES = FX_MODE_CUSTOM_0) ∧
    (customIds.map (fun m => _modes[m]?) = customModes.map some ∧
      customIds.map (fun m => _names[m]?) = customNames.map some) ∧
    (∀ m, m < 56 → ∀ f ∈ customModes, _modes[m]? ≠ some f) ∧
    (∀ m, m < 56 → ∀ n ∈ customNames, _names[m]? ≠ some n) := by
  decide

end WS2812FX

/-! ## Bitwise helpers -/

namespace WS2812FX

theorem and_mod_two_pow (a b n : Nat) :
    (a &&& b) % 2 ^ n = (a % 2 ^ n) &&& (b % 2 ^ n) := by
  apply Nat.eq_of_testBit_eq
  intro i
  simp only [Nat.testBit_mod_two_pow, Nat.testBit_and]
  cases decide (i < n) <;> simp

theorem shiftRight_and (a b k : Nat) : (a &&& b) >>> k = (a >>> k) &&& (b >>> k) := by
  apply Nat.eq_of_testBit_eq
  intro i
  simp only [Nat.testBit_shiftRight, Nat.testBit_and]

/-- The complement of a byte mask at `int` width, seen through the low byte. -/
theorem intNot_mod_256 (intBits x : Nat) (hw : 8 ≤ intBits) (hx : x < 256) :
    intNot intBits x % 256 = 255 - x := by
  obtain ⟨k, rfl⟩ : ∃ k, intBits = 8 + k := ⟨intBits - 8, by omega⟩
  have hpos : 0 < 2 ^ k := Nat.two_pow_pos k
  have hpow : 2 ^ (8 + k) = 256 * 2 ^ k := by rw [Nat.pow_add]
  have hlt : x < 256 * 2 ^ k := by omega
  unfold intNot
  rw [hpow, Nat.mod_eq_of_lt hlt]
  omega

theorem andAssign8_intNot (intBits a x : Nat) (hw : 8 ≤ intBits) (hx : x < 256) :
    andAssign8 a (intNot intBits x) = a % 256 &&& (255 - x) := by
  unfold andAssign8
  have h := and_mod_two_pow a (intNot intBits x) 8
  have h8 : (2 : Nat) ^ 8 = 256 := by decide
  rw [h8] at h
  rw [h, intNot_mod_256 intBits x hw hx]

/-- The clearing macros do not depend on the width of `int`. -/
theorem clr_width (intBits : Nat) (hw : 8 ≤ intBits) (a : Nat) :
    CLR_FRAME intBits a = CLR_FRAME 16 a ∧ CLR_CYCLE intBits a = CLR_CYCLE 16 a ∧
    CLR_FRAME_CYCLE intBits a = CLR_FRAME_CYCLE 16 a := by
  unfold CLR_FRAME CLR_CYCLE CLR_FRAME_CYCLE
  have h1 : FRAME < 256 := by decide
  have h2 : CYCLE < 256 := by decide
  have h3 : FRAME ||| CYCLE < 256 := by decide
  have h16 : 8 ≤ 16 := by decide
  rw [andAssign8_intNot intBits a _ hw h1, andAssign8_intNot intBits a _ hw h2,
    andAssign8_intNot intBits a _ hw h3, andAssign8_intNot 16 a _ h16 h1,
    andAssign8_intNot 16 a _ h16 h2, andAssign8_intNot 16 a _ h16 h3]
  exact ⟨rfl, rfl, rfl⟩

theorem and_63 (x : Nat) : x &&& 63 = x % 64 := Nat.and_pow_two_sub_one_eq_mod x 6
theorem and_15 (x : Nat) : x &&& 15 = x % 16 := Nat.and_pow_two_sub_one_eq_mod x 4
theorem and_255 (x : Nat) : x &&& 255 = x % 256 := Nat.and_pow_two_sub_one_eq_mod x 8

theorem DIM_eq (c : Nat) : DIM c = (c >>> 2) &&& 0x3f3f3f3f := by
  unfold DIM
  exact Nat.mod_eq_of_lt (Nat.lt_of_le_of_lt Nat.and_le_right (by decide))

theorem DARK_eq (c : Nat) : DARK c = (c >>> 4) &&& 0x0f0f0f0f := by
  unfold DARK
  exact Nat.mod_eq_of_lt (Nat.lt_of_le_of_lt Nat.and_le_right (by decide))

theorem channel_eq (c k : Nat) : channel c k = c / 2 ^ (8 * k) % 256 := by
  unfold channel
  rw [Nat.shiftRight_eq_div_pow]
  exact and_255 _

theorem channel_DIM (c k : Nat) (hk : k < 4) : channel (DIM c) k = c / 2 ^ (8 * k + 2) % 64 := by
  unfold channel
  rw [DIM_eq, shiftRight_and, Nat.and_assoc, ← Nat.shiftRight_add, Nat.shiftRight_eq_div_pow,
    Nat.add_comm 2]
  have hm : (0x3f3f3f3f >>> (8 * k)) &&& 0xFF = 63 := by
    interval_cases k <;> decide
  rw [hm]
  exact and_63 _

theorem channel_DARK (c k : Nat) (hk : k < 4) : channel (DARK c) k = c / 2 ^ (8 * k + 4) % 16 := by
  unfold channel
  rw [DARK_eq, shiftRight_and, Nat.and_assoc, ← Nat.shiftRight_add, Nat.shiftRight_eq_div_pow,
    Nat.add_comm 4]
  have hm : (0x0f0f0f0f >>> (8 * k)) &&& 0xFF = 15 := by
    interval_cases k <;> decide
  rw [hm]
  exact and_15 _

theorem channel_div4 (c k : Nat) (hk : k < 4) : channel (DIM c) k = channel c k / 4 := by
  rw [channel_DIM c k hk, channel_eq]
  interval_cases k <;> norm_num <;> omega

theorem channel_div16 (c k : Nat) (hk : k < 4) : channel (DARK c) k = channel c k / 16 := by
  rw [channel_DARK c k hk, channel_eq]
  interval_cases k <;> norm_num <;> omega

theorem eq_of_channels (x y : Nat) (hx : x < 4294967296) (hy : y < 4294967296)
    (h : ∀ k, k < 4 → channel x k = channel y k) : x = y := by
  have h0 := h 0 (by decide)
  have h1 := h 1 (by decide)
  have h2 := h 2 (by decide)
  have h3 := h 3 (by decide)
  rw [channel_eq, channel_eq] at h0 h1 h2 h3
  norm_num at h0 h1 h2 h3
  omega

theorem DIM_lt (c : Nat) : DIM c < 4294967296 := Nat.mod_lt _ (by decide)
theorem DARK_lt (c : Nat) : DARK c < 4294967296 := Nat.mod_lt _ (by decide)

theorem DARK_eq_DIM_DIM (c : Nat) : DARK c = DIM (DIM c) := by
  apply eq_of_channels _ _ (DARK_lt c) (DIM_lt _)
  intro k hk
  rw [channel_div16 c k hk, channel_div4 _ k hk, channel_div4 c k hk, Nat.div_div_eq_div_mul]

set_option maxRecDepth 100000 in
theorem flags_at_16 :
    ∀ a, a < 256 →
      (SET_FRAME a &&& 0x80 = 0x80 ∧ SET_FRAME a &&& 0x7F = a &&& 0x7F) ∧
      (SET_CYCLE a &&& 0x40 = 0x40 ∧ SET_CYCLE a &&& 0xBF = a &&& 0xBF) ∧
      (CLR_FRAME 16 a &&& 0x80 = 0 ∧ CLR_FRAME 16 a &&& 0x7F = a &&& 0x7F) ∧
      (CLR_CYCLE 16 a &&& 0x40 = 0 ∧ CLR_CYCLE 16 a &&& 0xBF = a &&& 0xBF) ∧
      (CLR_FRAME_CYCLE 16 a = CLR_CYCLE 16 (CLR_FRAME 16 a) ∧
        CLR_FRAME_CYCLE 16 a &&& 0xC0 = 0 ∧ CLR_FRAME_CYCLE 16 a &&& 0x3F = a &&& 0x3F) ∧
      (SET_FRAME (SET_FRAME a) = SET_FRAME a ∧ SET_CYCLE (SET_CYCLE a) = SET_CYCLE a ∧
        CLR_FRAME 16 (CLR_FRAME 16 a) = CLR_FRAME 16 a ∧
        CLR_CYCLE 16 (CLR_CYCLE 16 a) = CLR_CYCLE 16 a ∧
        CLR_FRAME_CYCLE 16 (CLR_FRAME_CYCLE 16 a) = CLR_FRAME_CYCLE 16 a) ∧
      (CLR_FRAME 16 a = a &&& 0x7F ∧ CLR_CYCLE 16 a = a &&& 0xBF ∧
        CLR_FRAME_CYCLE 16 a = a &&& 0x3F ∧ SET_FRAME a < 256 ∧ SET_CYCLE a < 256) := by
  decide

end WS2812FX

/-! ## Verified statements: parallel tables and the gamma curve -/

namespace WS2812FX

set_option maxRecDepth 100000 in
/-- C11: the dispatch table and the name table are parallel and agree with the
public mode constants. The effects, listed by constant, cover the identifiers
0..63 in order; entry `m` of `_modes` is the render function and entry `m` of
`_names` the display name of the effect whose constant is `m` (for example 26:
`FX_MODE_STROBE`, `mode_strobe`, "Strobe"; 39: `FX_MODE_COLOR_SWEEP_RANDOM`,
`mode_color_sweep_random`, "Color Sweep Random"); no render function and no
name appears at two identifiers. -/
theorem mode_tables_parallel :
    effects.map (fun e => e.1) = List.range 64 ∧
    _modes = effects.map (fun e => e.2.1) ∧
    _names = effects.map (fun e => e.2.2) ∧
    (∀ e ∈ effects, _modes[e.1]? = some e.2.1 ∧ _names[e.1]? = some e.2.2) ∧
    (FX_MODE_STROBE = 26 ∧ _modes[26]? = some Mode.mode_strobe ∧
      _names[26]? = some "Strobe") ∧
    (FX_MODE_COLOR_SWEEP_RANDOM = 39 ∧ _modes[39]? = some Mode.mode_color_sweep_random ∧
      _names[39]? = some "Color Sweep Random") ∧
    _modes[FX_MODE_CUSTOM]? = some Mode.mode_custom_0 ∧
    _modes.Nodup ∧ _names.Nodup := by
  decide

set_option maxRecDepth 100000 in
theorem gamma8_bounds :
    ∀ x, x < 256 →
      (2 * (gamma8 x : Int) - 1) ^ 5 * 255 ^ 8 ≤ 32 * (x : Int) ^ 13 ∧
      32 * (x : Int) ^ 13 < (2 * (gamma8 x : Int) + 1) ^ 5 * 255 ^ 8 := by
  decide

end WS2812FX

/-! ## Verified statements: the runtime flags -/

namespace WS2812FX

/-- C14: Frame and Cycle are independent single bits of `aux_param2`. For every
byte `a` and every `int` width of at least 16 bits: `SET_FRAME` sets bit 7 and
`SET_CYCLE` sets bit 6, each leaving the other seven bits as they are;
`CLR_FRAME` and `CLR_CYCLE` clear their own bit and leave the other seven;
`CLR_FRAME_CYCLE` equals `CLR_FRAME` followed by `CLR_CYCLE`, clears bits 7 and 6
and leaves the low six bits; each of the five operations is idempotent; and
the stored byte is `a & 0x7F`, `a & 0xBF`, `a & 0x3F`, although the complemented
mask is a full-width `int` with bits above bit 7 set. -/
theorem frame_cycle_flags (intBits a : Nat) (hw : 16 ≤ intBits) (ha : a < 256) :
    (SET_FRAME a &&& 0x80 = 0x80 ∧ SET_FRAME a &&& 0x7F = a &&& 0x7F) ∧
    (SET_CYCLE a &&& 0x40 = 0x40 ∧ SET_CYCLE a &&& 0xBF = a &&& 0xBF) ∧
    (CLR_FRAME intBits a &&& 0x80 = 0 ∧ CLR_FRAME intBits a &&& 0x7F = a &&& 0x7F) ∧
    (CLR_CYCLE intBits a &&& 0x40 = 0 ∧ CLR_CYCLE intBits a &&& 0xBF = a &&& 0xBF) ∧
    (CLR_FRAME_CYCLE intBits a = CLR_CYCLE intBits (CLR_FRAME intBits a) ∧
      CLR_FRAME_CYCLE intBits a &&& 0xC0 = 0 ∧
      CLR_FRAME_CYCLE intBits a &&& 0x3F = a &&& 0x3F) ∧
    (SET_FRAME (SET_FRAME a) = SET_FRAME a ∧ SET_CYCLE (SET_CYCLE a) = SET_CYCLE a ∧
      CLR_FRAME intBits (CLR_FRAME intBits a) = CLR_FRAME intBits a ∧
      CLR_CYCLE intBits (CLR_CYCLE intBits a) = CLR_CYCLE intBits a ∧
      CLR_FRAME_CYCLE intBits (CLR_FRAME_CYCLE intBits a) = CLR_FRAME_CYCLE intBits a) ∧
    (CLR_FRAME intBits a = a &&& 0x7F ∧ CLR_CYCLE intBits a = a &&& 0xBF ∧
      CLR_FRAME_CYCLE intBits a = a &&& 0x3F ∧ SET_FRAME a < 256 ∧ SET_CYCLE a < 256) ∧
    256 ≤ intNot intBits FRAME := by
  have k1 : ∀ x, CLR_FRAME intBits x = CLR_FRAME 16 x :=
    fun x => (clr_width intBits (by omega) x).1
  have k2 : ∀ x, CLR_CYCLE intBits x = CLR_CYCLE 16 x :=
    fun x => (clr_width intBits (by omega) x).2.1
  have k3 : ∀ x, CLR_FRAME_CYCLE intBits x = CLR_FRAME_CYCLE 16 x :=
    fun x => (clr_width intBits (by omega) x).2.2
  have hmask : 256 ≤ intNot intBits FRAME := by
    obtain ⟨k, rfl⟩ : ∃ k, intBits = 16 + k := ⟨intBits - 16, by omega⟩
    have hpos : 0 < 2 ^ k := Nat.two_pow_pos k
    have hpow : 2 ^ (16 + k) = 65536 * 2 ^ k := by rw [Nat.pow_add]
    have hlt : FRAME < 65536 * 2 ^ k := by
      have : FRAME = 128 := rfl
      omega
    unfold intNot
    rw [hpow, Nat.mod_eq_of_lt hlt]
    have : FRAME = 128 := rfl
    omega
  simp only [k1, k2, k3]
  obtain ⟨g1, g2, g3, g4, g5, g6, g7⟩ := flags_at_16 a ha
  exact ⟨g1, g2, g3, g4, g5, g6, g7, hmask⟩

/-- C14, evaluated for the byte 0xE5 with a 32-bit `int`. -/
theorem frame_cycle_flags_witness :
    (16 ≤ 32 ∧ 0xE5 < 256) ∧
    SET_FRAME 0xE5 &&& 0x80 = 0x80 ∧ SET_FRAME 0xE5 &&& 0x7F = 0xE5 &&& 0x7F :=
  ⟨by decide, (frame_cycle_flags 32 0xE5 (by decide) (by decide)).1⟩

end WS2812FX

/-! ## Verified statements: gamma rounding, dimming, and the unstarted engine -/

namespace WS2812FX

theorem rpow_26_pow5 (t : ℝ) (ht : 0 ≤ t) : (t ^ (2.6 : ℝ)) ^ 5 = t ^ 13 := by
  have h : (t ^ (2.6 : ℝ)) ^ (5 : ℕ) = (t ^ (2.6 : ℝ)) ^ ((5 : ℕ) : ℝ) :=
    (Real.rpow_natCast _ 5).symm
  rw [h, ← Real.rpow_mul ht]
  have e : (2.6 : ℝ) * ((5 : ℕ) : ℝ) = ((13 : ℕ) : ℝ) := by norm_num
  rw [e, Real.rpow_natCast]

theorem floor_gamma (x g : Nat)
    (h1 : (2 * (g : Int) - 1) ^ 5 * 255 ^ 8 ≤ 32 * (x : Int) ^ 13)
    (h2 : 32 * (x : Int) ^ 13 < (2 * (g : Int) + 1) ^ 5 * 255 ^ 8) :
    ⌊((x : ℝ) / 255) ^ (2.6 : ℝ) * 255 + 0.5⌋₊ = g := by
  have ht : (0 : ℝ) ≤ (x : ℝ) / 255 := by positivity
  have hy0 : (0 : ℝ) ≤ ((x : ℝ) / 255) ^ (2.6 : ℝ) * 255 := by positivity
  have hy5 : (((x : ℝ) / 255) ^ (2.6 : ℝ) * 255) ^ 5 * 255 ^ 8 = (x : ℝ) ^ 13 := by
    rw [mul_pow, rpow_26_pow5 _ ht, div_pow]
    field_simp
    ring
  have r1 : (2 * (g : ℝ) - 1) ^ 5 * 255 ^ 8 ≤ 32 * (x : ℝ) ^ 13 := by exact_mod_cast h1
  have r2 : 32 * (x : ℝ) ^ 13 < (2 * (g : ℝ) + 1) ^ 5 * 255 ^ 8 := by exact_mod_cast h2
  set y : ℝ := ((x : ℝ) / 255) ^ (2.6 : ℝ) * 255 with hy
  have hpos : (0 : ℝ) < 255 ^ 8 := by positivity
  rw [Nat.floor_eq_iff (by positivity)]
  constructor
  · -- g ≤ y + 0.5
    by_cases hg : 2 * (g : ℝ) - 1 ≤ 0
    · have : (g : ℝ) ≤ 0.5 := by norm_num; linarith
      linarith
    · push_neg at hg
      have hle : (2 * (g : ℝ) - 1) ^ 5 ≤ (2 * y) ^ 5 := by
        have : (2 * y) ^ 5 * 255 ^ 8 = 32 * (x : ℝ) ^ 13 := by
          rw [← hy5]; ring
        have h3 : (2 * (g : ℝ) - 1) ^ 5 * 255 ^ 8 ≤ (2 * y) ^ 5 * 255 ^ 8 := by
          rw [this]; exact r1
        exact le_of_mul_le_mul_right h3 hpos
      have := le_of_pow_le_pow_left₀ (by norm_num : (5 : ℕ) ≠ 0) (by positivity) hle
      norm_num
      linarith
  · have hlt : (2 * y) ^ 5 < (2 * (g : ℝ) + 1) ^ 5 := by
      have : (2 * y) ^ 5 * 255 ^ 8 = 32 * (x : ℝ) ^ 13 := by
        rw [← hy5]; ring
      have h3 : (2 * y) ^ 5 * 255 ^ 8 < (2 * (g : ℝ) + 1) ^ 5 * 255 ^ 8 := by
        rw [this]; exact r2
      exact lt_of_mul_lt_mul_right h3 hpos.le
    have := lt_of_pow_lt_pow_left₀ 5 (by positivity) hlt
    norm_num
    linarith

/-- C12: `gamma8` is the gamma-2.6 curve rounded to nearest. For every `x` in
0..255, `gamma8(x) = floor((x/255)^2.6 * 255 + 0.5)` over the reals, and with
`g = gamma8(x)` the integers satisfy
`(2g-1)^5 * 255^8 ≤ 32 * x^13 < (2g+1)^5 * 255^8`. -/
theorem gamma8_rounds_gamma_curve (x : Nat) (hx : x < 256) :
    gamma8 x = ⌊((x : ℝ) / 255) ^ (2.6 : ℝ) * 255 + 0.5⌋₊ ∧
    (2 * (gamma8 x : Int) - 1) ^ 5 * 255 ^ 8 ≤ 32 * (x : Int) ^ 13 ∧
    32 * (x : Int) ^ 13 < (2 * (gamma8 x : Int) + 1) ^ 5 * 255 ^ 8 := by
  obtain ⟨h1, h2⟩ := gamma8_bounds x hx
  exact ⟨(floor_gamma x (gamma8 x) h1 h2).symm, h1, h2⟩

/-- C12, evaluated at x = 128, where the table holds 42. -/
theorem gamma8_rounds_gamma_curve_witness :
    128 < 256 ∧ gamma8 128 = 42 ∧
    gamma8 128 = ⌊(((128 : Nat) : ℝ) / 255) ^ (2.6 : ℝ) * 255 + 0.5⌋₊ :=
  ⟨by decide, by decide, (gamma8_rounds_gamma_curve 128 (by decide)).1⟩

/-- C13: `DIM` and `DARK` scale every colour channel on its own. For every colour
`c` and each of the four 8-bit channels `k`, channel `k` of `DIM(c)` is
`channel / 4` and channel `k` of `DARK(c)` is `channel / 16`; a colour with the
same channel `k` gives the same channel `k` after `DIM` and after `DARK`,
whatever its other channels are; and `DARK(c) = DIM(DIM(c))`. -/
theorem dim_dark_channels (c k : Nat) (hk : k < 4) :
    channel (DIM c) k = channel c k / 4 ∧
    channel (DARK c) k = channel c k / 16 ∧
    (∀ c2, channel c2 k = channel c k →
      channel (DIM c2) k = channel (DIM c) k ∧ channel (DARK c2) k = channel (DARK c) k) ∧
    DARK c = DIM (DIM c) ∧
    DIM c < 4294967296 ∧ DARK c < 4294967296 := by
  refine ⟨channel_div4 c k hk, channel_div16 c k hk, ?_, DARK_eq_DIM_DIM c, DIM_lt c,
    DARK_lt c⟩
  intro c2 h
  rw [channel_div4 c2 k hk, channel_div4 c k hk, channel_div16 c2 k hk,
    channel_div16 c k hk, h]
  exact ⟨rfl, rfl⟩

/-- C13, evaluated on the green channel of `ORANGE` (0xFF3000): 0x30 becomes 12
under `DIM` and 3 under `DARK`. -/
theorem dim_dark_channels_witness :
    1 < 4 ∧ channel 0xFF3000 1 = 48 ∧
    channel (DIM 0xFF3000) 1 = channel 0xFF3000 1 / 4 ∧
    channel (DARK 0xFF3000) 1 = channel 0xFF3000 1 / 16 :=
  ⟨by decide, by decide, (dim_dark_channels 0xFF3000 1 (by decide)).1,
    (dim_dark_channels 0xFF3000 1 (by decide)).2.1⟩

end WS2812FX

namespace WS2812FXT

open WS2812FX Arduino

/-- With duration 0 the window is the single instant `now == start`: both guards
of `_show` fail there and the range mapping is called with a zero span. -/
theorem zero_duration_span (start : Nat) (hs : start < 4294967296) :
    ¬ (start < start) ∧ ¬ (start > addUL start 0) ∧
    toLong (toLong (addUL start 0 : Nat) - toLong (start : Nat)) = 0 ∧
    map (toLong start) (toLong start) (toLong (addUL start 0 : Nat)) 0 255 = none := by
  have ha : addUL start 0 = start := by
    unfold addUL
    simpa using Nat.mod_eq_of_lt hs
  have hz : toLong (toLong (start : Nat) - toLong (start : Nat)) = 0 := by
    rw [Int.sub_self]
    rfl
  rw [ha]
  refine ⟨by omega, by omega, hz, ?_⟩
  unfold map
  rw [if_pos hz]

/-- With a duration `1 ≤ d ≤ 65535` the span handed to the range mapping is `d`,
not zero, whether or not the end of the window wraps around the clock. -/
theorem nonzero_duration_span (start d : Nat) (hd : 1 ≤ d) (hd16 : d < 65536) :
    toLong (toLong (addUL start d : Nat) - toLong (start : Nat)) = (d : Int) := by
  unfold toLong addUL
  omega

/-- C15 fails on the code: after `startTransition(0)` at clock reading 1000, a
`_show` in the same millisecond passes both guards (`1000 < 1000` and
`1000 > 1000 + 0` are false), takes the blend branch and calls
`map(1000, 1000, 1000, 0, 255)`, whose input span `in_max - in_min` is 0: the
division has no result. -/
theorem show_zero_duration_divides_by_zero :
    (startTransition 1000 0 true (sample 0 5000 true)).transitionStartTime = 1000 ∧
    (startTransition 1000 0 true (sample 0 5000 true)).transitionDuration = 0 ∧
    ¬ (1000 < 1000) ∧ ¬ (1000 > addUL 1000 0) ∧
    (∃ amt, showStep 1000 0 1000 = ShowStep.blend amt) ∧
    toLong (toLong (addUL 1000 0 : Nat) - toLong (1000 : Nat)) = 0 ∧
    map (toLong 1000) (toLong 1000) (toLong (addUL 1000 0 : Nat)) 0 255 = none := by
  refine ⟨rfl, rfl, by decide, by decide, ⟨0, by decide⟩, by decide, by decide⟩

/-- C16: a `WS2812FXT` on which `startTransition` has never been called (start time
`MAX_MILLIS = 2^32 - 1`, direction true) shows `v1`: for every clock reading
`now < MAX_MILLIS` and every duration, `_show` takes the first branch and copies
the `getNumBytes()` bytes of `v1` into the destination, and replacing `v2` by
any other engine gives the same destination. -/
theorem unstarted_shows_v1 (v1 v2 dest : Engine) (d now : Nat) (hnow : now < MAX_MILLIS) :
    (unstarted v1 v2 dest d).transitionStartTime = 4294967295 ∧
    (unstarted v1 v2 dest d).transitionDirection = true ∧
    showStep (unstarted v1 v2 dest d).transitionStartTime d now = ShowStep.copyStart ∧
    (_show now (unstarted v1 v2 dest d)).dest.getPixels
      = memmove dest.getPixels v1.getPixels dest.getNumBytes ∧
    (∀ i, i < dest.getNumBytes →
      (_show now (unstarted v1 v2 dest d)).dest.getPixels i = v1.getPixels i) ∧
    (∀ other : Engine,
      (_show now (unstarted v1 other dest d)).dest = (_show now (unstarted v1 v2 dest d)).dest) := by
  have hstep : showStep (unstarted v1 v2 dest d).transitionStartTime d now
      = ShowStep.copyStart := showStep_before _ _ _ hnow
  have hdest : (_show now (unstarted v1 v2 dest d)).dest.getPixels
      = memmove dest.getPixels v1.getPixels dest.getNumBytes := by
    rw [show_dest_eq]
    have h2 : showStep (unstarted v1 v2 dest d).transitionStartTime
        (unstarted v1 v2 dest d).transitionDuration now = ShowStep.copyStart := hstep
    rw [h2]
    rfl
  refine ⟨rfl, rfl, hstep, hdest, ?_, ?_⟩
  · intro i hi
    rw [hdest]
    simp [memmove, hi]
  · intro other
    have h1 : showStep (unstarted v1 other dest d).transitionStartTime
        (unstarted v1 other dest d).transitionDuration now = ShowStep.copyStart :=
      showStep_before _ _ _ hnow
    have h2 : showStep (unstarted v1 v2 dest d).transitionStartTime
        (unstarted v1 v2 dest d).transitionDuration now = ShowStep.copyStart := hstep
    simp only [_show, flushDest, h1, h2]
    rfl

/-- C16, evaluated at clock reading 123456 with `v1` showing 10 and `v2` showing
200. -/
theorem unstarted_shows_v1_witness :
    123456 < MAX_MILLIS ∧
    ∀ i, i < (solidEngine 0 12).getNumBytes →
      (_show 123456 (unstarted (solidEngine 10 12) (solidEngine 200 12) (solidEngine 0 12)
        5000)).dest.getPixels i = (solidEngine 10 12).getPixels i :=
  ⟨by decide,
    (unstarted_shows_v1 (solidEngine 10 12) (solidEngine 200 12) (solidEngine 0 12) 5000
      123456 (by decide)).2.2.2.2.1⟩

/-- C17: the crossfade never runs backwards. For a start time and a duration
`1 ≤ d ≤ 65535` with `start + d < 2^32` and two clock readings
`start ≤ now1 ≤ now2 ≤ start + d`, `_show` takes the blend branch at both, and
the amount at `now1` is at most the amount at `now2`. -/
theorem blend_amount_monotone (start d now1 now2 : Nat) (hd : 1 ≤ d) (hd16 : d < 65536)
    (hend : start + d < 4294967296) (h1 : start ≤ now1) (h12 : now1 ≤ now2)
    (h2 : now2 ≤ start + d) :
    showStep start d now1 = ShowStep.blend (blendAmt start d now1) ∧
    showStep start d now2 = ShowStep.blend (blendAmt start d now2) ∧
    blendAmt start d now1 ≤ blendAmt start d now2 := by
  have e1 := blendAmt_window start d now1 hd hd16 h1 (by omega) hend
  have e2 := blendAmt_window start d now2 hd hd16 (by omega) (by omega) hend
  have s1 := showStep_window start d now1 hd hd16 h1 (by omega) hend
  have s2 := showStep_window start d now2 hd hd16 (by omega) (by omega) hend
  rw [e1, e2]
  exact ⟨s1, s2, Nat.div_le_div_right (Nat.mul_le_mul_left 255 (by omega))⟩

/-- C17, evaluated one and three seconds into a five-second transition. -/
theorem blend_amount_monotone_witness :
    (1 ≤ 5000 ∧ 5000 < 65536 ∧ 1000 + 5000 < 4294967296 ∧ 1000 ≤ 2000 ∧ 2000 ≤ 4000 ∧
      4000 ≤ 1000 + 5000) ∧
    blendAmt 1000 5000 2000 ≤ blendAmt 1000 5000 4000 :=
  ⟨by decide,
    (blend_amount_monotone 1000 5000 2000 4000 (by decide) (by decide) (by decide)
      (by decide) (by decide) (by decide)).2.2⟩

end WS2812FXT
